import Mathlib

/-!
Shallow embedding of the session lifecycle, streaming reconciliation, quota
tracking and registry loading logic of the chat client (src/App.tsx and
src/Sidebar.tsx), together with theorems settling the frozen claims about it.

Instants are modelled as natural numbers counting minutes; a local calendar
day is a block of 1440 consecutive minutes starting at a multiple of 1440
(local midnight).  JavaScript string truncation `substring(0, n)` is modelled
by `String.take n`; object spreads over `Record<string, ChatSession>` are
modelled by an association list updated in insertion order (session ids are
13-digit numeric strings, which JavaScript does not reorder).
-/

inductive Sender where
  | user
  | ai
deriving DecidableEq

inductive ModelType where
  | b1Regular
  | b2Coding
deriving DecidableEq

structure ChatMessage where
  id : String
  text : String
  sender : Sender
  timestamp : Nat
  imageUrl : Option String := none
  isImageQuery : Bool := false
  generatedImage : Option String := none
  modelUsed : Option ModelType := none
deriving DecidableEq

structure ChatSession where
  id : String
  title : String
  messages : List ChatMessage
  model : ModelType
  timestamp : Nat
  systemInstruction : String
deriving DecidableEq

/-- The session registry `Record<string, ChatSession>` as an association
list in insertion order. -/
abbrev Registry := List (String × ChatSession)

/-! Constants imported from `../constants` (that module is not under `src/`).
Modelled from the spec: only their identity matters to the claims, so each is
an opaque distinct token named after the source constant. -/

def DEFAULT_CHAT_TITLE_BN : String := "<default-chat-title>"

def ERROR_API_KEY_MISSING_BN : String := "<error-api-key-missing>"

def ERROR_SEND_FAILED_BN : String := "<error-send-failed>"

def ERROR_API_KEY_INVALID_BN : String := "<error-api-key-invalid>"

def ERROR_NO_INPUT_BN : String := "<error-no-input>"

def ERROR_SESSION_NOT_READY_BN : String := "<error-session-not-ready>"

def ERROR_INIT_FAILED_BN : String := "<error-init-failed>"

def IMAGE_QUERY_PROMPT_DEFAULT_BN : String := "<image-query-default-prompt>"

def IMAGE_GENERATION_IN_PROGRESS_BN : String := "<image-generation-in-progress>"

def IMAGE_GENERATION_FAILED_BN : String := "<image-generation-failed>"

def IMAGE_LIMIT_REACHED_BN : String := "<image-limit-reached>"

def IMAGE_GENERATION_LOGIN_REQUIRED_BN : String := "<image-generation-login-required>"

def INITIAL_WELCOME_MESSAGE_BN : String := "<initial-welcome-message>"

def SYSTEM_INSTRUCTION_B1_BN : String := "<system-instruction-b1>"

def SYSTEM_INSTRUCTION_B2_BN : String := "<system-instruction-b2>"

/-- Modelled from the spec: the daily image-generation cap used in the spec's
`tryConsume` examples (`limit=3`). -/
def DAILY_IMAGE_GENERATION_LIMIT : Nat := 3

def DEFAULT_MODEL_TYPE : ModelType := ModelType.b1Regular

/-! Quota tracking (src/Sidebar.tsx `handleGenerateImage`, lines 405-417 and
446-455).  `lastGeneratedAt.toDate() >= today` with `today` set to local
midnight becomes `startOfDay now ≤ lastGeneratedAt`. -/

structure QuotaRecord where
  count : Nat
  lastGeneratedAt : Nat
deriving DecidableEq

def minutesPerDay : Nat := 1440

/-- Local midnight of the day containing `t`. -/
def startOfDay (t : Nat) : Nat := t / minutesPerDay * minutesPerDay

/-- Two instants fall on the same local calendar day. -/
def sameLocalDay (a b : Nat) : Bool := a / minutesPerDay == b / minutesPerDay

/-- Effective quota count (src/Sidebar.tsx lines 405-412): the stored count if
`lastGeneratedAt` is at or after today's local midnight, else 0. -/
def currentCount (cache : Option QuotaRecord) (now : Nat) : Nat :=
  match cache with
  | none => 0
  | some r => if startOfDay now ≤ r.lastGeneratedAt then r.count else 0

/-- Follows the spec's words for `currentCount`: the stored count only when
`lastGeneratedAt` is on the same local calendar day as `now`, else 0.  Kept
separate from `currentCount` (which follows the source) for comparison. -/
def currentCountSpec (cache : Option QuotaRecord) (now : Nat) : Nat :=
  match cache with
  | none => 0
  | some r => if sameLocalDay r.lastGeneratedAt now then r.count else 0

inductive QuotaError where
  | quotaExceeded
deriving DecidableEq

/-- The consume step of `handleGenerateImage` (gate at lines 414-417, new
record computed and written at lines 446-455), with a single `now` for the
gate and the write. -/
def tryConsume (cache : Option QuotaRecord) (now : Nat) (limit : Nat) :
    Except QuotaError QuotaRecord :=
  if limit ≤ currentCount cache now then Except.error QuotaError.quotaExceeded
  else Except.ok ⟨currentCount cache now + 1, now⟩

/-! Title derivation. -/

/-- Title derived from a first user message on the send path
(src/Sidebar.tsx lines 277 and 336): first 35 characters, with an ellipsis
marker appended exactly when the text is longer than 35 characters. -/
def deriveTitle (text : String) : String :=
  text.take 35 ++ (if 35 < text.length then "..." else "")

/-- The `loadAll` title backfill (src/App.tsx line 102): a session with a
missing title gets the first 30 characters of the first user message's text,
falling back to the default title when that is absent or empty. -/
def backfillTitle (s : ChatSession) : ChatSession :=
  if s.title = "" then
    { s with title :=
        match s.messages.find? (fun m => decide (m.sender = Sender.user)) with
        | some m => if m.text.take 30 = "" then DEFAULT_CHAT_TITLE_BN else m.text.take 30
        | none => DEFAULT_CHAT_TITLE_BN }
  else s

/-- Whitespace test for `jsTrim` (space, tab, newline, carriage return). -/
def isSpaceChar (c : Char) : Bool :=
  c = ' ' ∨ c = '\t' ∨ c = '\n' ∨ c = '\r'

/-- JavaScript `String.prototype.trim`, modelled over the character list. -/
def jsTrim (s : String) : String :=
  ⟨((s.data.dropWhile isSpaceChar).reverse.dropWhile isSpaceChar).reverse⟩

/-! Registry primitives. -/

/-- Key lookup in the registry, modelling `chatSessions[id]`. -/
def findSession : Registry → String → Option ChatSession
  | [], _ => none
  | p :: rest, k => if p.1 = k then some p.2 else findSession rest k

/-- The object spread `{ ...prev, [k]: s }`: replaces the value in place when
the key is present (JavaScript keeps the original insertion position),
otherwise appends the new entry. -/
def setSession (reg : Registry) (k : String) (s : ChatSession) : Registry :=
  if (findSession reg k).isSome then
    reg.map (fun p => if p.1 = k then (k, s) else p)
  else reg ++ [(k, s)]

/-- The auto-title branch of `updateCurrentSessionMessages`
(src/Sidebar.tsx lines 273-279). -/
def autoTitle (updatedMessages : List ChatMessage) (curTitle : String) : String :=
  if 1 < updatedMessages.length ∧ curTitle = DEFAULT_CHAT_TITLE_BN then
    match updatedMessages.find? (fun m => decide (m.sender = Sender.user) && m.text != "") with
    | some firstUserMessage => deriveTitle firstUserMessage.text
    | none => curTitle
  else curTitle

/-- The title selection of `updateCurrentSessionMessages` (lines 270-279);
`if (newTitle)` treats an empty-string override as absent. -/
def computeTitle (newTitle : Option String) (updatedMessages : List ChatMessage)
    (curTitle : String) : String :=
  match newTitle with
  | some t => if t = "" then autoTitle updatedMessages curTitle else t
  | none => autoTitle updatedMessages curTitle

/-- `updateCurrentSessionMessages` (src/Sidebar.tsx lines 263-291): applies a
message transform to the closure's active session when its id still resolves,
recomputing the title and stamping the session timestamp; a no-op when the
closure had no active session or the id no longer resolves. -/
def updateCurrentSessionMessages (reg : Registry) (closureActiveId : Option String)
    (newMessagesFn : List ChatMessage → List ChatMessage)
    (newTitle : Option String) (now : Nat) : Registry :=
  match closureActiveId with
  | none => reg
  | some aid =>
    match findSession reg aid with
    | none => reg
    | some currentSession =>
      let updatedMessages := newMessagesFn currentSession.messages
      setSession reg aid
        { currentSession with
          messages := updatedMessages,
          title := computeTitle newTitle updatedMessages currentSession.title,
          timestamp := now }

/-- The per-message transform inside `updateAIMessageStream`
(src/Sidebar.tsx lines 301-307): append the chunk to the matching message,
stamping the model variant when final. -/
def streamMapMsg (aiMessageId chunkText : String) (isFinal : Bool)
    (currentModel : ModelType) (m : ChatMessage) : ChatMessage :=
  if m.id == aiMessageId then
    { m with text := m.text ++ chunkText,
             modelUsed := if isFinal then some currentModel else m.modelUsed }
  else m

/-- The message-list body of `updateAIMessageStream`
(src/Sidebar.tsx lines 299-313): append to the matching message, and when no
message carries the id and the chunk is non-empty, push a fresh AI message
with that id. -/
def updateAIMessageStreamMsgs (msgs : List ChatMessage) (aiMessageId chunkText : String)
    (isFinal : Bool) (currentModel : ModelType) (now : Nat) : List ChatMessage :=
  let messageExists := msgs.any (fun m => m.id == aiMessageId)
  let updatedMessages := msgs.map (streamMapMsg aiMessageId chunkText isFinal currentModel)
  if !messageExists && chunkText != "" then
    updatedMessages ++ [{ id := aiMessageId, text := chunkText, sender := Sender.ai,
                          timestamp := now, modelUsed := some currentModel }]
  else updatedMessages

/-- `updateAIMessageStream` (src/Sidebar.tsx lines 297-315). -/
def updateAIMessageStream (reg : Registry) (closureActiveId : Option String)
    (currentModel : ModelType) (aiMessageId chunkText : String)
    (isFinal : Bool) (now : Nat) : Registry :=
  match closureActiveId with
  | none => reg
  | some _ =>
    updateCurrentSessionMessages reg closureActiveId
      (fun msgs => updateAIMessageStreamMsgs msgs aiMessageId chunkText isFinal currentModel now)
      none now

/-- One iteration of the streaming loop (src/Sidebar.tsx lines 362-364):
chunks with empty text are skipped. -/
def deliverFragment (closureActiveId : Option String) (currentModel : ModelType)
    (aiMessageId : String) (now : Nat) (reg : Registry) (chunk : String) : Registry :=
  if chunk != "" then
    updateAIMessageStream reg closureActiveId currentModel aiMessageId chunk false now
  else reg

/-- The whole streaming loop over a finite fragment sequence. -/
def deliverFragments (closureActiveId : Option String) (currentModel : ModelType)
    (aiMessageId : String) (now : Nat) (reg : Registry) (chunks : List String) : Registry :=
  chunks.foldl (deliverFragment closureActiveId currentModel aiMessageId now) reg

/-- Concatenation of fragments in emission order. -/
def concatChunks : List String → String
  | [] => ""
  | c :: cs => c ++ concatChunks cs

/-- The text of the message carrying a given id, if any. -/
def placeholderText (aiMessageId : String) (msgs : List ChatMessage) : Option String :=
  (msgs.find? (fun m => m.id == aiMessageId)).map (fun m => m.text)

/-! The send pipeline (src/Sidebar.tsx `handleSendMessage`, lines 317-376). -/

/-- Outcome of the remote streaming send: the provider either reported an
invalid key in the thrown error's message, or failed generically. -/
structure SendError where
  invalidKey : Bool
deriving DecidableEq

/-- Error text chosen in the catch block (src/Sidebar.tsx lines 368-369). -/
def errorTextOf (e : SendError) : String :=
  if e.invalidKey then ERROR_API_KEY_INVALID_BN else ERROR_SEND_FAILED_BN

/-- The catch-block overwrite (src/Sidebar.tsx line 371): replace the
placeholder's text with the error text and stamp the model. -/
def finalizeError (reg : Registry) (closureActiveId : Option String)
    (currentModel : ModelType) (aiMessageId : String) (errText : String)
    (now : Nat) : Registry :=
  updateCurrentSessionMessages reg closureActiveId
    (fun prev => prev.map (fun msg =>
      if msg.id == aiMessageId then { msg with text := errText, modelUsed := some currentModel }
      else msg))
    none now

structure SendResult where
  reg : Registry
  globalError : Option String
  remoteCalled : Bool
deriving DecidableEq

/-- `handleSendMessage` (src/Sidebar.tsx lines 317-376).  `closureActive` is
the `activeChatSession` captured by the handler's closure; `geminiReady`
models `geminiChatSession.current` being non-null; the remote stream is
modelled by the fragments it delivered plus an optional terminating error. -/
def handleSendMessage (reg : Registry) (closureActive : Option ChatSession)
    (geminiReady : Bool) (apiKey : Option String)
    (inputValue : String) (hasUploadedImage : Bool) (busy : Bool)
    (userMsgId aiMessageId : String) (now : Nat)
    (chunks : List String) (streamError : Option SendError)
    (prevError : Option String) : SendResult :=
  let textToSend := jsTrim inputValue
  if (textToSend = "" ∧ ¬hasUploadedImage) ∨ busy then
    { reg := reg, globalError := prevError, remoteCalled := false }
  else if ¬geminiReady then
    { reg := reg, globalError := some ERROR_SESSION_NOT_READY_BN, remoteCalled := false }
  else if apiKey.isNone then
    { reg := reg, globalError := some ERROR_API_KEY_MISSING_BN, remoteCalled := false }
  else
    let userMessageText :=
      if textToSend ≠ "" then textToSend
      else if hasUploadedImage then IMAGE_QUERY_PROMPT_DEFAULT_BN else ""
    if userMessageText = "" then
      { reg := reg, globalError := some ERROR_NO_INPUT_BN, remoteCalled := false }
    else
      let closureId := closureActive.map (fun s => s.id)
      let currentModel := (closureActive.map (fun s => s.model)).getD ModelType.b1Regular
      let userMessage : ChatMessage :=
        { id := userMsgId, text := userMessageText, sender := Sender.user,
          timestamp := now, isImageQuery := hasUploadedImage }
      let titleForSession : Option String :=
        match closureActive with
        | some s => if s.title = DEFAULT_CHAT_TITLE_BN then some (deriveTitle userMessageText) else none
        | none => none
      let reg1 := updateCurrentSessionMessages reg closureId
        (fun prev => prev ++ [userMessage]) titleForSession now
      let reg2 := updateCurrentSessionMessages reg1 closureId
        (fun prev => prev ++ [{ id := aiMessageId, text := "", sender := Sender.ai,
                                timestamp := now, modelUsed := some currentModel }])
        none now
      let reg3 := deliverFragments closureId currentModel aiMessageId now reg2 chunks
      match streamError with
      | some e =>
        let errText := errorTextOf e
        { reg := finalizeError reg3 closureId currentModel aiMessageId errText now,
          globalError := some errText, remoteCalled := true }
      | none =>
        { reg := updateAIMessageStream reg3 closureId currentModel aiMessageId "" true now,
          globalError := none, remoteCalled := true }

/-! Image generation (src/Sidebar.tsx `handleGenerateImage`, lines 399-464). -/

/-- The user-visible caption of the image request message (line 426). -/
def imageRequestText (originalInputValue : String) : String :=
  "\"" ++ originalInputValue ++ "\" <image-request-caption>"

/-- The caption of the successfully generated image message (line 441). -/
def imageGeneratedText (originalInputValue : String) : String :=
  "\"" ++ originalInputValue ++ "\" <image-generated-caption>"

inductive ImageGenOutcome where
  | ignored
  | missingCredential
  | loginRequired
  | quotaExceeded
  | generationFailed
  | success
deriving DecidableEq

structure ImageGenResult where
  outcome : ImageGenOutcome
  reg : Registry
  globalError : Option String
  cache : Option QuotaRecord
  storeWrite : Option QuotaRecord
  remoteCalled : Bool
  quotaConsulted : Bool
deriving DecidableEq

/-- `handleGenerateImage` (src/Sidebar.tsx lines 399-464).  `cache` is the
in-memory `userImageGenData`; `storeWrite` records what (if anything) was
merge-written to the external per-user document; `genResult` models the
remote image call's outcome.  The guards run in source order: empty/busy,
missing credential, login, then the quota gate. -/
def handleGenerateImage (reg : Registry) (closureActive : Option ChatSession)
    (inputValue : String) (busy : Bool) (apiKey : Option String)
    (currentUser : Option String) (cache : Option QuotaRecord) (now : Nat)
    (genResult : Except Unit String) (userMsgId aiMessageId : String)
    (prevError : Option String) : ImageGenResult :=
  let prompt := jsTrim inputValue
  if prompt = "" ∨ busy then
    { outcome := ImageGenOutcome.ignored, reg := reg, globalError := prevError,
      cache := cache, storeWrite := none, remoteCalled := false, quotaConsulted := false }
  else if apiKey.isNone then
    { outcome := ImageGenOutcome.missingCredential, reg := reg,
      globalError := some ERROR_API_KEY_MISSING_BN,
      cache := cache, storeWrite := none, remoteCalled := false, quotaConsulted := false }
  else if currentUser.isNone then
    { outcome := ImageGenOutcome.loginRequired, reg := reg,
      globalError := some IMAGE_GENERATION_LOGIN_REQUIRED_BN,
      cache := cache, storeWrite := none, remoteCalled := false, quotaConsulted := false }
  else if DAILY_IMAGE_GENERATION_LIMIT ≤ currentCount cache now then
    { outcome := ImageGenOutcome.quotaExceeded, reg := reg,
      globalError := some IMAGE_LIMIT_REACHED_BN,
      cache := cache, storeWrite := none, remoteCalled := false, quotaConsulted := true }
  else
    let closureId := closureActive.map (fun s => s.id)
    let currentModel := (closureActive.map (fun s => s.model)).getD ModelType.b1Regular
    let userMessage : ChatMessage :=
      { id := userMsgId, text := imageRequestText inputValue, sender := Sender.user,
        timestamp := now }
    let reg1 := updateCurrentSessionMessages reg closureId
      (fun prev => prev ++ [userMessage]) none now
    let reg2 := updateCurrentSessionMessages reg1 closureId
      (fun prev => prev ++ [{ id := aiMessageId, text := IMAGE_GENERATION_IN_PROGRESS_BN,
                              sender := Sender.ai, timestamp := now,
                              modelUsed := some currentModel }])
      none now
    match genResult with
    | Except.error _ =>
      let reg3 := updateCurrentSessionMessages reg2 closureId
        (fun prev => prev.map (fun msg =>
          if msg.id == aiMessageId then { msg with text := IMAGE_GENERATION_FAILED_BN }
          else msg))
        none now
      { outcome := ImageGenOutcome.generationFailed, reg := reg3,
        globalError := some IMAGE_GENERATION_FAILED_BN,
        cache := cache, storeWrite := none, remoteCalled := true, quotaConsulted := true }
    | Except.ok base64Image =>
      let aiGenerated : ChatMessage :=
        { id := aiMessageId, text := imageGeneratedText inputValue, sender := Sender.ai,
          timestamp := now, generatedImage := some base64Image,
          modelUsed := some currentModel }
      let reg3 := updateCurrentSessionMessages reg2 closureId
        (fun prev => prev.map (fun msg => if msg.id == aiMessageId then aiGenerated else msg))
        none now
      let newCountToday := currentCount cache now + 1
      { outcome := ImageGenOutcome.success, reg := reg3, globalError := none,
        cache := some ⟨newCountToday, now⟩, storeWrite := some ⟨newCountToday, now⟩,
        remoteCalled := true, quotaConsulted := true }

/-! Replay filtering on rebind (src/App.tsx lines 124-135 and 236-246). -/

/-- Substring containment, modelling JavaScript `String.prototype.includes`,
over the character list. -/
def strContains (s pat : String) : Bool :=
  (List.range (s.data.length + 1)).any (fun i => pat.data.isPrefixOf (s.data.drop i))

/-- The reserved id marker of the synthetic welcome message
(`'_ai_welcome'`, src/App.tsx lines 60 and 129). -/
def WELCOME_ID_MARKER : String := "_ai_welcome"

/-- The rebind filter predicate (src/App.tsx lines 129 and 240):
`m.text && m.sender !== AI || (m.sender === AI && !m.id.includes('_ai_welcome') && m.text)`. -/
def replayKeep (m : ChatMessage) : Bool :=
  (m.text != "" && !(decide (m.sender = Sender.ai))) ||
  (decide (m.sender = Sender.ai) && !(strContains m.id WELCOME_ID_MARKER) && m.text != "")

structure HistoryTurn where
  role : String
  text : String
deriving DecidableEq

/-- Role mapping on rebind (src/App.tsx lines 131 and 242). -/
def toRole (s : Sender) : String :=
  if s = Sender.user then "user" else "model"

/-- The replayed history handed to the remote conversation on rebind
(src/App.tsx lines 128-133 and 239-244). -/
def replayHistory (msgs : List ChatMessage) : List HistoryTurn :=
  (msgs.filter replayKeep).map (fun m => { role := toRole m.sender, text := m.text })

/-! Session creation, registry loading and model change (src/App.tsx). -/

/-- `getSystemInstruction` (src/App.tsx lines 52-54). -/
def getSystemInstruction (model : ModelType) : String :=
  match model with
  | ModelType.b2Coding => SYSTEM_INSTRUCTION_B2_BN
  | ModelType.b1Regular => SYSTEM_INSTRUCTION_B1_BN

/-- The seeded welcome message (src/App.tsx lines 59-65). -/
def welcomeMessage (model : ModelType) (now : Nat) : ChatMessage :=
  { id := toString now ++ WELCOME_ID_MARKER, text := INITIAL_WELCOME_MESSAGE_BN,
    sender := Sender.ai, timestamp := now, modelUsed := some model }

/-- `createNewChatSessionObject` (src/App.tsx lines 56-75); `Date.now()` is
the `now` argument.  A `title` of `""` falls back to the default title
(`title || DEFAULT_CHAT_TITLE_BN`). -/
def createNewChatSessionObject (model : ModelType) (id : Option String)
    (messages : Option (List ChatMessage)) (title : Option String)
    (now : Nat) : ChatSession :=
  { id := id.getD (toString now),
    title := match title with
             | some t => if t = "" then DEFAULT_CHAT_TITLE_BN else t
             | none => DEFAULT_CHAT_TITLE_BN,
    messages := messages.getD [welcomeMessage model now],
    model := model,
    timestamp := now,
    systemInstruction := getSystemInstruction model }

/-- Picks the later of two sessions by last-activity timestamp, keeping the
earlier-listed one on ties: the head of `sort((a,b) => b.timestamp - a.timestamp)`
with a stable sort. -/
def pickNewer (best s : ChatSession) : ChatSession :=
  if best.timestamp < s.timestamp then s else best

/-- The most-recently-active session (src/App.tsx line 110). -/
def mostRecent : List ChatSession → Option ChatSession
  | [] => none
  | s :: rest => some (rest.foldl pickNewer s)

structure InitResult where
  sessions : Registry
  activeChatId : String
  globalError : Option String
  geminiBound : Bool
deriving DecidableEq

/-- The stored-history deserialization of `initializeChatLogic`
(src/App.tsx lines 97-104): absent or unparseable storage loads nothing; a
parsed registry has its timestamps repaired (the identity here) and missing
titles backfilled per session. -/
def loadStored (stored : Option (Except Unit Registry)) : Registry :=
  match stored with
  | some (Except.ok reg) => reg.map (fun p => (p.1, backfillTitle p.2))
  | _ => []

/-- The fallback of the active-session resolution (src/App.tsx lines
108-118): with sessions loaded and no forced id, the most-recently-active
session by timestamp descending; otherwise a fresh session is inserted and
chosen. -/
def chooseFallback (loadedSessions : Registry) (sessionIdToLoad : Option String)
    (fresh : ChatSession) : Registry × String × Option ChatSession :=
  if 0 < loadedSessions.length ∧ sessionIdToLoad = none then
    match mostRecent (loadedSessions.map Prod.snd) with
    | some s => (loadedSessions, s.id, findSession loadedSessions s.id)
    | none => (loadedSessions, "", none)
  else
    (setSession loadedSessions fresh.id fresh, fresh.id, some fresh)

/-- The active-session resolution of `initializeChatLogic`
(src/App.tsx lines 106-118): a recorded active id that resolves wins;
otherwise the fallback applies.  The third component is
`activeSessionToInit`: `none` reproduces the line-137 throw. -/
def chooseActive (loadedSessions : Registry) (storedActiveChatId : Option String)
    (sessionIdToLoad : Option String) (fresh : ChatSession) :
    Registry × String × Option ChatSession :=
  match storedActiveChatId with
  | some aid =>
    match findSession loadedSessions aid with
    | some s => (loadedSessions, aid, some s)
    | none => chooseFallback loadedSessions sessionIdToLoad fresh
  | none => chooseFallback loadedSessions sessionIdToLoad fresh

/-- `initializeChatLogic` (src/App.tsx lines 77-163).  `stored` models the
durable history entry: absent, or parsing to a registry, or failing to parse
(`JSON.parse` throwing); `storedActiveId` models the stored active-id entry;
`fresh` is the session `createNewChatSessionObject` would build on demand.
A parse failure, like any other throw in the `try` (including the line-137
throw when no active session can be determined), lands in the catch handler
of lines 140-159: the initialization error is reported once and a brand-new
session replaces the corrupt state. -/
def initializeChatLogic (apiKey : Option String)
    (stored : Option (Except Unit Registry)) (storedActiveId : Option String)
    (sessionIdToLoad : Option String) (fresh : ChatSession) : InitResult :=
  match apiKey with
  | none =>
    { sessions := [(fresh.id, fresh)], activeChatId := fresh.id,
      globalError := some ERROR_API_KEY_MISSING_BN, geminiBound := false }
  | some _ =>
    match stored with
    | some (Except.error _) =>
      { sessions := [(fresh.id, fresh)], activeChatId := fresh.id,
        globalError := some ERROR_INIT_FAILED_BN, geminiBound := true }
    | _ =>
      let storedActiveChatId : Option String :=
        match sessionIdToLoad with
        | some s => some s
        | none => storedActiveId
      let step := chooseActive (loadStored stored) storedActiveChatId sessionIdToLoad fresh
      match step.2.2 with
      | some _ =>
        { sessions := step.1, activeChatId := step.2.1,
          globalError := none, geminiBound := true }
      | none =>
        { sessions := [(fresh.id, fresh)], activeChatId := fresh.id,
          globalError := some ERROR_INIT_FAILED_BN, geminiBound := true }

/-- `startNewChat`'s registry effect (src/App.tsx lines 201-204): insert the
new session and make it active. -/
def startNewChat (reg : Registry) (newSession : ChatSession) : Registry × String :=
  (setSession reg newSession.id newSession, newSession.id)

/-- `handleModelChangeOnSidebar` (src/App.tsx lines 259-266): starts a new
chat with the new model unless the active session already uses it
(`chatSessions[activeChatId]?.model !== newModel`, where a missing session
also counts as a mismatch). -/
def handleModelChangeOnSidebar (reg : Registry) (activeChatId : Option String)
    (newModel : ModelType) (now : Nat) : Registry × Option String :=
  match activeChatId with
  | none => (reg, none)
  | some aid =>
    if (findSession reg aid).map ChatSession.model ≠ some newModel then
      let ns := createNewChatSessionObject newModel none none none now
      let r := startNewChat reg ns
      (r.1, some r.2)
    else (reg, some aid)

instance {ε α : Type} [DecidableEq ε] [DecidableEq α] : DecidableEq (Except ε α) := fun a b =>
  match a, b with
  | Except.error e, Except.error f =>
    if h : e = f then isTrue (by rw [h]) else isFalse (by intro hc; cases hc; exact h rfl)
  | Except.error _, Except.ok _ => isFalse (by intro hc; cases hc)
  | Except.ok _, Except.error _ => isFalse (by intro hc; cases hc)
  | Except.ok x, Except.ok y =>
    if h : x = y then isTrue (by rw [h]) else isFalse (by intro hc; cases hc; exact h rfl)

/-! Helper lemmas about the registry primitives. -/

theorem findSession_append (reg reg2 : Registry) (q : String) :
    findSession (reg ++ reg2) q =
      match findSession reg q with
      | some v => some v
      | none => findSession reg2 q := by
  induction reg with
  | nil => simp [findSession]
  | cons p rest ih =>
    by_cases h : p.1 = q
    · simp [findSession, h]
    · simp [findSession, h, ih]

theorem findSession_map_set (reg : Registry) (k : String) (s : ChatSession)
    (q : String) (hq : q ≠ k) :
    findSession (reg.map (fun p => if p.1 = k then (k, s) else p)) q = findSession reg q := by
  induction reg with
  | nil => rfl
  | cons p rest ih =>
    simp only [List.map_cons]
    by_cases hk : p.1 = k
    · rw [if_pos hk]
      have h1 : ¬(k = q) := fun hc => hq hc.symm
      have h2 : ¬(p.1 = q) := by rw [hk]; exact h1
      simp only [findSession]
      rw [if_neg h1, if_neg h2]
      exact ih
    · rw [if_neg hk]
      simp only [findSession]
      by_cases h2 : p.1 = q
      · rw [if_pos h2, if_pos h2]
      · rw [if_neg h2, if_neg h2]
        exact ih

theorem findSession_map_set_self (reg : Registry) (k : String) (s : ChatSession)
    (v : ChatSession) (hx : findSession reg k = some v) :
    findSession (reg.map (fun p => if p.1 = k then (k, s) else p)) k = some s := by
  induction reg with
  | nil => simp [findSession] at hx
  | cons p rest ih =>
    simp only [List.map_cons]
    by_cases hk : p.1 = k
    · rw [if_pos hk]
      simp [findSession]
    · rw [if_neg hk]
      simp only [findSession] at hx ⊢
      rw [if_neg hk] at hx ⊢
      exact ih hx

theorem findSession_setSession_self (reg : Registry) (k : String) (s : ChatSession) :
    findSession (setSession reg k s) k = some s := by
  unfold setSession
  rcases hx : findSession reg k with _ | v
  · rw [if_neg (by simp [hx])]
    rw [findSession_append, hx]
    simp [findSession]
  · rw [if_pos (by simp [hx])]
    exact findSession_map_set_self reg k s v hx

theorem findSession_setSession_other (reg : Registry) (k : String) (s : ChatSession)
    (q : String) (hq : q ≠ k) :
    findSession (setSession reg k s) q = findSession reg q := by
  unfold setSession
  by_cases h : (findSession reg k).isSome
  · rw [if_pos h]
    exact findSession_map_set reg k s q hq
  · rw [if_neg h]
    rw [findSession_append]
    rcases hx : findSession reg q with _ | v
    · simp only [findSession]
      rw [if_neg (fun hc => hq hc.symm)]
    · simp

/-! Helper lemmas about session mutation and the streaming reconciler. -/

theorem updateCSM_lookup (reg : Registry) (aid : String)
    (f : List ChatMessage → List ChatMessage) (nt : Option String) (now : Nat)
    (s : ChatSession) (hs : findSession reg aid = some s) :
    findSession (updateCurrentSessionMessages reg (some aid) f nt now) aid
      = some { s with
               messages := f s.messages
               title := computeTitle nt (f s.messages) s.title
               timestamp := now } := by
  simp only [updateCurrentSessionMessages, hs]
  exact findSession_setSession_self _ _ _

theorem updateCSM_none (reg : Registry)
    (f : List ChatMessage → List ChatMessage) (nt : Option String) (now : Nat) :
    updateCurrentSessionMessages reg none f nt now = reg := rfl

theorem updateCSM_absent (reg : Registry) (aid : String)
    (f : List ChatMessage → List ChatMessage) (nt : Option String) (now : Nat)
    (hs : findSession reg aid = none) :
    updateCurrentSessionMessages reg (some aid) f nt now = reg := by
  simp only [updateCurrentSessionMessages, hs]

theorem streamMapMsg_id (P c : String) (fin : Bool) (model : ModelType)
    (x : ChatMessage) : (streamMapMsg P c fin model x).id = x.id := by
  unfold streamMapMsg
  split <;> rfl

theorem find?_cons_eval {α : Type} (p : α → Bool) (a : α) (l : List α) :
    List.find? p (a :: l) = if p a then some a else List.find? p l := by
  rcases h : p a with _ | _
  · simp [List.find?, h]
  · simp [List.find?, h]

theorem find?_map_id_preserving (P : String) (f : ChatMessage → ChatMessage)
    (hf : ∀ x, (f x).id = x.id) (msgs : List ChatMessage) (m : ChatMessage)
    (hm : msgs.find? (fun x => x.id == P) = some m) :
    (msgs.map f).find? (fun x => x.id == P) = some (f m) := by
  induction msgs with
  | nil => simp at hm
  | cons x xs ih =>
    rw [find?_cons_eval] at hm
    simp only [List.map_cons]
    rw [find?_cons_eval]
    by_cases hx : (x.id == P) = true
    · rw [if_pos hx] at hm
      injection hm with hm2
      subst hm2
      have hfx : ((f x).id == P) = true := by rw [hf x]; exact hx
      rw [if_pos hfx]
    · rw [if_neg hx] at hm
      have hfx : ¬((f x).id == P) = true := by rw [hf x]; exact hx
      rw [if_neg hfx]
      exact ih hm

theorem any_of_find? (P : String) (msgs : List ChatMessage) (m : ChatMessage)
    (hm : msgs.find? (fun x => x.id == P) = some m) :
    msgs.any (fun x => x.id == P) = true := by
  have h1 := List.find?_some hm
  have h2 := List.mem_of_find?_eq_some hm
  exact List.any_eq_true.mpr ⟨m, h2, h1⟩

theorem updateAIMSMsgs_of_exists (msgs : List ChatMessage) (P c : String)
    (fin : Bool) (model : ModelType) (now : Nat)
    (h : msgs.any (fun x => x.id == P) = true) :
    updateAIMessageStreamMsgs msgs P c fin model now
      = msgs.map (streamMapMsg P c fin model) := by
  unfold updateAIMessageStreamMsgs
  simp [h]

theorem streamMapMsg_match (P c : String) (fin : Bool) (model : ModelType)
    (m : ChatMessage) (hm : (m.id == P) = true) :
    streamMapMsg P c fin model m
      = { m with
          text := m.text ++ c
          modelUsed := if fin then some model else m.modelUsed } := by
  unfold streamMapMsg
  rw [if_pos hm]

theorem stream_step_lookup (reg : Registry) (aid : String) (model : ModelType)
    (P c : String) (fin : Bool) (now : Nat) (s : ChatSession) (m : ChatMessage)
    (hs : findSession reg aid = some s)
    (hm : s.messages.find? (fun x => x.id == P) = some m) :
    ∃ s2, findSession (updateAIMessageStream reg (some aid) model P c fin now) aid = some s2 ∧
      s2.messages.find? (fun x => x.id == P)
        = some { m with
                 text := m.text ++ c
                 modelUsed := if fin then some model else m.modelUsed } ∧
      s2.title = autoTitle s2.messages s.title := by
  have hany := any_of_find? P s.messages m hm
  have hmain := updateCSM_lookup reg aid
    (fun msgs => updateAIMessageStreamMsgs msgs P c fin model now) none now s hs
  have hlook : findSession (updateAIMessageStream reg (some aid) model P c fin now) aid
      = some { s with
               messages := updateAIMessageStreamMsgs s.messages P c fin model now
               title := computeTitle none (updateAIMessageStreamMsgs s.messages P c fin model now) s.title
               timestamp := now } := by
    simpa only [updateAIMessageStream] using hmain
  refine ⟨_, hlook, ?_, ?_⟩
  · show (updateAIMessageStreamMsgs s.messages P c fin model now).find?
      (fun x => x.id == P) = _
    rw [updateAIMSMsgs_of_exists s.messages P c fin model now hany]
    rw [find?_map_id_preserving P _ (streamMapMsg_id P c fin model) s.messages m hm]
    have hpm := List.find?_some hm
    rw [streamMapMsg_match P c fin model m hpm]
  · rfl

theorem updateAIMS_none (reg : Registry) (model : ModelType) (P c : String)
    (fin : Bool) (now : Nat) :
    updateAIMessageStream reg none model P c fin now = reg := rfl

theorem updateAIMS_absent (reg : Registry) (aid : String) (model : ModelType)
    (P c : String) (fin : Bool) (now : Nat) (hs : findSession reg aid = none) :
    updateAIMessageStream reg (some aid) model P c fin now = reg := by
  simp only [updateAIMessageStream]
  exact updateCSM_absent reg aid _ none now hs

theorem map_no_match (msgs : List ChatMessage) (P c : String) (fin : Bool)
    (model : ModelType) (h : ∀ x ∈ msgs, ¬((x.id == P) = true)) :
    msgs.map (streamMapMsg P c fin model) = msgs := by
  induction msgs with
  | nil => rfl
  | cons x xs ih =>
    simp only [List.map_cons]
    have hx := h x (List.mem_cons_self x xs)
    simp only [streamMapMsg]
    rw [if_neg hx]
    rw [ih (fun y hy => h y (List.mem_cons_of_mem x hy))]

theorem updateAIMSMsgs_resurrect (msgs : List ChatMessage) (P c : String)
    (fin : Bool) (model : ModelType) (now : Nat)
    (hnone : msgs.find? (fun x => x.id == P) = none) (hc : c ≠ "") :
    updateAIMessageStreamMsgs msgs P c fin model now
      = msgs ++ [{ id := P, text := c, sender := Sender.ai, timestamp := now,
                   modelUsed := some model }] := by
  have hall : ∀ x ∈ msgs, ¬((x.id == P) = true) := by
    intro x hx
    exact List.find?_eq_none.mp hnone x hx
  have hany : msgs.any (fun x => x.id == P) = false := by
    rw [List.any_eq_false]
    exact hall
  unfold updateAIMessageStreamMsgs
  rw [map_no_match msgs P c fin model hall]
  simp [hany, hc]

theorem updateAIMSMsgs_skip (msgs : List ChatMessage) (P : String)
    (fin : Bool) (model : ModelType) (now : Nat)
    (hnone : msgs.find? (fun x => x.id == P) = none) :
    updateAIMessageStreamMsgs msgs P "" fin model now = msgs := by
  have hall : ∀ x ∈ msgs, ¬((x.id == P) = true) := by
    intro x hx
    exact List.find?_eq_none.mp hnone x hx
  unfold updateAIMessageStreamMsgs
  rw [map_no_match msgs P "" fin model hall]
  simp

theorem deliver_fold_placeholder (chunks : List String) :
    ∀ (reg : Registry) (aid : String) (model : ModelType) (P : String) (now : Nat)
      (s : ChatSession) (m : ChatMessage),
      findSession reg aid = some s →
      s.messages.find? (fun x => x.id == P) = some m →
      ∃ s2 m2,
        findSession (deliverFragments (some aid) model P now reg chunks) aid = some s2 ∧
        s2.messages.find? (fun x => x.id == P) = some m2 ∧
        m2.text = m.text ++ concatChunks chunks := by
  induction chunks with
  | nil =>
    intro reg aid model P now s m hs hm
    refine ⟨s, m, hs, hm, ?_⟩
    show m.text = m.text ++ concatChunks []
    rw [show concatChunks [] = "" from rfl, String.append_empty]
  | cons c cs ih =>
    intro reg aid model P now s m hs hm
    by_cases hc : c = ""
    · subst hc
      have hstep : deliverFragments (some aid) model P now reg ("" :: cs)
          = deliverFragments (some aid) model P now reg cs := by
        simp [deliverFragments, deliverFragment]
      obtain ⟨s2, m2, h1, h2, h3⟩ := ih reg aid model P now s m hs hm
      refine ⟨s2, m2, ?_, h2, ?_⟩
      · rw [hstep]
        exact h1
      · rw [h3, show concatChunks ("" :: cs) = "" ++ concatChunks cs from rfl,
            String.empty_append]
    · obtain ⟨s2, hl2, hf2, _⟩ := stream_step_lookup reg aid model P c false now s m hs hm
      obtain ⟨s3, m3, g1, g2, g3⟩ := ih _ aid model P now s2 _ hl2 hf2
      refine ⟨s3, m3, ?_, g2, ?_⟩
      · have hstep : deliverFragments (some aid) model P now reg (c :: cs)
            = deliverFragments (some aid) model P now
                (updateAIMessageStream reg (some aid) model P c false now) cs := by
          simp [deliverFragments, deliverFragment, hc]
        rw [hstep]
        exact g1
      · rw [g3]
        show (m.text ++ c) ++ concatChunks cs = m.text ++ concatChunks (c :: cs)
        rw [show concatChunks (c :: cs) = c ++ concatChunks cs from rfl,
            String.append_assoc]

theorem updateCSM_title_preserved (reg : Registry) (aid : String)
    (f : List ChatMessage → List ChatMessage) (now : Nat) (s : ChatSession)
    (hs : findSession reg aid = some s) (ht : s.title ≠ DEFAULT_CHAT_TITLE_BN) :
    findSession (updateCurrentSessionMessages reg (some aid) f none now) aid
      = some { s with
               messages := f s.messages
               title := s.title
               timestamp := now } := by
  have hmain := updateCSM_lookup reg aid f none now s hs
  have htitle : computeTitle none (f s.messages) s.title = s.title := by
    show autoTitle (f s.messages) s.title = s.title
    unfold autoTitle
    rw [if_neg]
    intro hc
    exact ht hc.2
  rw [hmain, htitle]

theorem deliver_fold_title (chunks : List String) :
    ∀ (reg : Registry) (aid : String) (model : ModelType) (P : String) (now : Nat)
      (s : ChatSession),
      findSession reg aid = some s → s.title ≠ DEFAULT_CHAT_TITLE_BN →
      ∃ s2, findSession (deliverFragments (some aid) model P now reg chunks) aid = some s2 ∧
        s2.title = s.title := by
  induction chunks with
  | nil =>
    intro reg aid model P now s hs ht
    exact ⟨s, hs, rfl⟩
  | cons c cs ih =>
    intro reg aid model P now s hs ht
    by_cases hc : c = ""
    · subst hc
      obtain ⟨s2, h1, h2⟩ := ih reg aid model P now s hs ht
      refine ⟨s2, ?_, h2⟩
      have hstep : deliverFragments (some aid) model P now reg ("" :: cs)
          = deliverFragments (some aid) model P now reg cs := by
        simp [deliverFragments, deliverFragment]
      rw [hstep]
      exact h1
    · have hone : findSession (updateAIMessageStream reg (some aid) model P c false now) aid
          = some { s with
                   messages := updateAIMessageStreamMsgs s.messages P c false model now
                   title := s.title
                   timestamp := now } := by
        have := updateCSM_title_preserved reg aid
          (fun msgs => updateAIMessageStreamMsgs msgs P c false model now) now s hs ht
        simpa only [updateAIMessageStream] using this
      obtain ⟨s3, g1, g2⟩ := ih _ aid model P now _ hone ht
      refine ⟨s3, ?_, g2⟩
      have hstep : deliverFragments (some aid) model P now reg (c :: cs)
          = deliverFragments (some aid) model P now
              (updateAIMessageStream reg (some aid) model P c false now) cs := by
        simp [deliverFragments, deliverFragment, hc]
      rw [hstep]
      exact g1

theorem find?_overwrite (msgs : List ChatMessage) (P errText : String)
    (model : ModelType) (m : ChatMessage)
    (hm : msgs.find? (fun x => x.id == P) = some m) :
    (msgs.map (fun msg =>
        if msg.id == P then { msg with text := errText, modelUsed := some model }
        else msg)).find? (fun x => x.id == P)
      = some { m with text := errText, modelUsed := some model } := by
  have hid : ∀ x : ChatMessage,
      ((fun msg => if msg.id == P
          then { msg with text := errText, modelUsed := some model }
          else msg) x).id = x.id := by
    intro x
    dsimp only
    split <;> rfl
  have hmap := find?_map_id_preserving P _ hid msgs m hm
  rw [hmap]
  have hpm := List.find?_some hm
  rw [if_pos hpm]

theorem find?_append_single (msgs : List ChatMessage) (x : ChatMessage) (P : String)
    (h : ∀ y ∈ msgs, ¬((y.id == P) = true)) (hx : (x.id == P) = true) :
    (msgs ++ [x]).find? (fun y => y.id == P) = some x := by
  induction msgs with
  | nil =>
    rw [List.nil_append, find?_cons_eval, if_pos hx]
  | cons a l ih =>
    rw [List.cons_append, find?_cons_eval, if_neg (h a (List.mem_cons_self a l))]
    exact ih (fun y hy => h y (List.mem_cons_of_mem a hy))

theorem foldl_pickNewer_sound (l : List ChatSession) :
    ∀ acc : ChatSession,
      (l.foldl pickNewer acc = acc ∨ l.foldl pickNewer acc ∈ l) ∧
      acc.timestamp ≤ (l.foldl pickNewer acc).timestamp ∧
      ∀ x ∈ l, x.timestamp ≤ (l.foldl pickNewer acc).timestamp := by
  induction l with
  | nil =>
    intro acc
    exact ⟨Or.inl rfl, Nat.le_refl _, by simp⟩
  | cons a l ih =>
    intro acc
    simp only [List.foldl_cons]
    have h := ih (pickNewer acc a)
    have hacc : acc.timestamp ≤ (pickNewer acc a).timestamp := by
      unfold pickNewer
      split
      · exact Nat.le_of_lt (by assumption)
      · exact Nat.le_refl _
    have ha : a.timestamp ≤ (pickNewer acc a).timestamp := by
      unfold pickNewer
      split
      · exact Nat.le_refl _
      · exact Nat.le_of_not_lt (by assumption)
    refine ⟨?_, Nat.le_trans hacc h.2.1, ?_⟩
    · rcases h.1 with h1 | h1
      · rw [h1]
        unfold pickNewer
        split
        · exact Or.inr (List.mem_cons_self a l)
        · exact Or.inl rfl
      · exact Or.inr (List.mem_cons_of_mem a h1)
    · intro x hx
      rcases List.mem_cons.mp hx with h2 | h2
      · rw [h2]
        exact Nat.le_trans ha h.2.1
      · exact h.2.2 x h2

theorem mostRecent_spec (ss : List ChatSession) (s : ChatSession)
    (h : mostRecent ss = some s) :
    s ∈ ss ∧ ∀ x ∈ ss, x.timestamp ≤ s.timestamp := by
  cases ss with
  | nil => simp [mostRecent] at h
  | cons a l =>
    simp only [mostRecent] at h
    injection h with h2
    subst h2
    have hh := foldl_pickNewer_sound l a
    constructor
    · rcases hh.1 with h1 | h1
      · rw [h1]
        exact List.mem_cons_self a l
      · exact List.mem_cons_of_mem a h1
    · intro x hx
      rcases List.mem_cons.mp hx with h2 | h2
      · rw [h2]
        exact hh.2.1
      · exact hh.2.2 x h2

/-! Claim theorems. -/

/-- C2: for every finite sequence of streamed fragments delivered for a
placeholder id `P` while the same session remains active and the placeholder
is not removed, the placeholder's final text is its starting text followed by
the concatenation of the fragments in emission order, for any fragment count
and sizes (empty fragments included, which the loop skips with no effect). -/
theorem stream_fragments_concat (reg : Registry) (aid : String) (model : ModelType)
    (P : String) (now : Nat) (chunks : List String) (s : ChatSession) (m : ChatMessage)
    (hs : findSession reg aid = some s)
    (hm : s.messages.find? (fun x => x.id == P) = some m) :
    ∃ s2, findSession (deliverFragments (some aid) model P now reg chunks) aid = some s2 ∧
      placeholderText P s2.messages = some (m.text ++ concatChunks chunks) := by
  obtain ⟨s2, m2, h1, h2, h3⟩ := deliver_fold_placeholder chunks reg aid model P now s m hs hm
  refine ⟨s2, h1, ?_⟩
  unfold placeholderText
  rw [h2]
  simp only [Option.map_some']
  rw [h3]

/-- Witness for C2 on the spec's example: fragments `["Hel", "lo, ", "world"]`
into an empty placeholder yield `"Hello, world"`. -/
theorem stream_fragments_concat_witness :
    ((findSession (deliverFragments (some "s1") ModelType.b1Regular "8_ai" 9
        [("s1", { id := "s1", title := "T",
                  messages := [{ id := "8_ai", text := "", sender := Sender.ai, timestamp := 9 }],
                  model := ModelType.b1Regular, timestamp := 0, systemInstruction := "SI" })]
        ["Hel", "lo, ", "world"]) "s1").bind
      (fun s => placeholderText "8_ai" s.messages)) = some "Hello, world" := by
  obtain ⟨s2, h1, h2⟩ := stream_fragments_concat
    [("s1", { id := "s1", title := "T",
              messages := [{ id := "8_ai", text := "", sender := Sender.ai, timestamp := 9 }],
              model := ModelType.b1Regular, timestamp := 0, systemInstruction := "SI" })]
    "s1" ModelType.b1Regular "8_ai" 9 ["Hel", "lo, ", "world"]
    { id := "s1", title := "T",
      messages := [{ id := "8_ai", text := "", sender := Sender.ai, timestamp := 9 }],
      model := ModelType.b1Regular, timestamp := 0, systemInstruction := "SI" }
    { id := "8_ai", text := "", sender := Sender.ai, timestamp := 9 }
    (by rfl) (by rfl)
  rw [h1]
  show placeholderText "8_ai" s2.messages = some "Hello, world"
  rw [h2]
  rfl

/-- C1 as stated is false at a concrete input.  First conjunct: with the
placeholder removed (no message of session `"s1"` carries id `"9_ai"`), a
later fragment `"Hi"` re-creates (resurrects) a message with the stale
placeholder id instead of no-opping.  Remaining conjuncts: with the active
session switched away from `"s1"` mid-stream, a fragment arriving through the
stale closure still appends to the previous session's placeholder `"7_ai"`,
changing its text from `"par"` to `"parHi"` rather than leaving it
untouched. -/
theorem stale_stream_cex :
    ((findSession (updateAIMessageStream
        [("s1", { id := "s1", title := "T",
                  messages := [{ id := "1_user", text := "hi", sender := Sender.user, timestamp := 0 }],
                  model := ModelType.b1Regular, timestamp := 0, systemInstruction := "SI" })]
        (some "s1") ModelType.b1Regular "9_ai" "Hi" false 5) "s1").map
      (fun s => placeholderText "9_ai" s.messages) = some (some "Hi")) ∧
    (placeholderText "9_ai"
      [{ id := "1_user", text := "hi", sender := Sender.user, timestamp := 0 }] = none) ∧
    ((findSession (updateAIMessageStream
        [("s1", { id := "s1", title := "T",
                  messages := [{ id := "1_user", text := "hi", sender := Sender.user, timestamp := 0 },
                               { id := "7_ai", text := "par", sender := Sender.ai, timestamp := 0,
                                 modelUsed := some ModelType.b1Regular }],
                  model := ModelType.b1Regular, timestamp := 0, systemInstruction := "SI" }),
         ("s2", { id := "s2", title := "U", messages := [],
                  model := ModelType.b1Regular, timestamp := 1, systemInstruction := "SI" })]
        (some "s1") ModelType.b1Regular "7_ai" "Hi" false 5) "s1").map
      (fun s => placeholderText "7_ai" s.messages) = some (some "parHi")) ∧
    (placeholderText "7_ai"
      [{ id := "1_user", text := "hi", sender := Sender.user, timestamp := 0 },
       { id := "7_ai", text := "par", sender := Sender.ai, timestamp := 0,
         modelUsed := some ModelType.b1Regular }] = some "par") := by
  refine ⟨?_, ?_, ?_, ?_⟩ <;> rfl

/-- C1 amended: a fragment arriving for a stale placeholder id is a no-op
only when the stream's closure had no active session or the closure's session
id no longer resolves in the registry.  When the id still resolves (as after
a mere session switch), the fragment is applied to that previous session: it
appends to the placeholder when a message with the id is present; when the
placeholder was removed, a non-empty fragment re-creates a message carrying
the stale id at the end of that session's list, and an empty fragment leaves
the message list unchanged. -/
theorem stale_stream_amended :
    (∀ (reg : Registry) (model : ModelType) (P c : String) (fin : Bool) (now : Nat),
      updateAIMessageStream reg none model P c fin now = reg) ∧
    (∀ (reg : Registry) (aid : String) (model : ModelType) (P c : String) (fin : Bool) (now : Nat),
      findSession reg aid = none →
      updateAIMessageStream reg (some aid) model P c fin now = reg) ∧
    (∀ (reg : Registry) (aid : String) (model : ModelType) (P c : String) (now : Nat)
       (s : ChatSession) (m : ChatMessage),
      findSession reg aid = some s →
      s.messages.find? (fun x => x.id == P) = some m →
      ∃ s2, findSession (updateAIMessageStream reg (some aid) model P c false now) aid = some s2 ∧
        placeholderText P s2.messages = some (m.text ++ c)) ∧
    (∀ (reg : Registry) (aid : String) (model : ModelType) (P c : String) (now : Nat)
       (s : ChatSession),
      findSession reg aid = some s →
      s.messages.find? (fun x => x.id == P) = none → c ≠ "" →
      ∃ s2, findSession (updateAIMessageStream reg (some aid) model P c false now) aid = some s2 ∧
        s2.messages = s.messages ++
          [{ id := P, text := c, sender := Sender.ai, timestamp := now,
             modelUsed := some model }]) ∧
    (∀ (reg : Registry) (aid : String) (model : ModelType) (P : String) (now : Nat)
       (s : ChatSession),
      findSession reg aid = some s →
      s.messages.find? (fun x => x.id == P) = none →
      ∃ s2, findSession (updateAIMessageStream reg (some aid) model P "" false now) aid = some s2 ∧
        s2.messages = s.messages) := by
  refine ⟨?_, ?_, ?_, ?_, ?_⟩
  · intro reg model P c fin now
    exact updateAIMS_none reg model P c fin now
  · intro reg aid model P c fin now hs
    exact updateAIMS_absent reg aid model P c fin now hs
  · intro reg aid model P c now s m hs hm
    obtain ⟨s2, h1, h2, _⟩ := stream_step_lookup reg aid model P c false now s m hs hm
    refine ⟨s2, h1, ?_⟩
    unfold placeholderText
    rw [h2]
    rfl
  · intro reg aid model P c now s hs hm hc
    have hmain := updateCSM_lookup reg aid
      (fun msgs => updateAIMessageStreamMsgs msgs P c false model now) none now s hs
    refine ⟨_, by simpa only [updateAIMessageStream] using hmain, ?_⟩
    show updateAIMessageStreamMsgs s.messages P c false model now = _
    exact updateAIMSMsgs_resurrect s.messages P c false model now hm hc
  · intro reg aid model P now s hs hm
    have hmain := updateCSM_lookup reg aid
      (fun msgs => updateAIMessageStreamMsgs msgs P "" false model now) none now s hs
    refine ⟨_, by simpa only [updateAIMessageStream] using hmain, ?_⟩
    show updateAIMessageStreamMsgs s.messages P "" false model now = _
    exact updateAIMSMsgs_skip s.messages P false model now hm

/-- Witness for the amended C1, exercising the resurrection branch at a
concrete input: a non-empty fragment for a missing placeholder id appends a
fresh AI message carrying that id. -/
theorem stale_stream_amended_witness :
    ((findSession (updateAIMessageStream
        [("w1", { id := "w1", title := "T", messages := [],
                  model := ModelType.b1Regular, timestamp := 0, systemInstruction := "SI" })]
        (some "w1") ModelType.b1Regular "p" "x" false 3) "w1").map
      (fun s => s.messages))
      = some [{ id := "p", text := "x", sender := Sender.ai, timestamp := 3,
                modelUsed := some ModelType.b1Regular }] := by
  obtain ⟨s2, h1, h2⟩ := stale_stream_amended.2.2.2.1
    [("w1", { id := "w1", title := "T", messages := [],
              model := ModelType.b1Regular, timestamp := 0, systemInstruction := "SI" })]
    "w1" ModelType.b1Regular "p" "x" 3
    { id := "w1", title := "T", messages := [],
      model := ModelType.b1Regular, timestamp := 0, systemInstruction := "SI" }
    (by rfl) (by rfl) (by decide)
  rw [h1]
  simp only [Option.map_some']
  rw [h2]
  rfl

/-- C4 as stated is false at a concrete input: with `now = 100` (day 0) and a
record whose `lastGeneratedAt = 1500` lies on the NEXT local day, the code's
effective count is the stored count (the gate only compares against today's
local midnight, `lastGeneratedAt >= startOfToday`), whereas the claim's
same-local-calendar-day rule demands 0. -/
theorem quota_same_day_cex :
    currentCount (some ⟨2, 1500⟩) 100 = 2 ∧
    sameLocalDay 1500 100 = false ∧
    currentCountSpec (some ⟨2, 1500⟩) 100 = 0 ∧
    currentCount (some ⟨2, 1500⟩) 100 ≠ currentCountSpec (some ⟨2, 1500⟩) 100 := by
  refine ⟨?_, ?_, ?_, ?_⟩ <;> decide

/-- C4 amended: the effective count equals `record.count` when
`record.lastGeneratedAt` falls on the same local calendar day as `now` OR on
any later instant past that day's local midnight (the code compares
`lastGeneratedAt >= startOfToday`), and 0 otherwise; consuming fails with
`QuotaExceeded` exactly when the effective count has reached the limit and
otherwise stores the effective count plus one stamped at `now`; with limit 3,
three same-local-day consumptions yield counts 1, 2, 3, a fourth fails, and a
consumption after crossing the local-day boundary resets the count to 1. -/
theorem quota_counting_amended :
    (∀ (r : QuotaRecord) (now : Nat),
      currentCount (some r) now
        = if sameLocalDay r.lastGeneratedAt now = true
             ∨ startOfDay now < startOfDay r.lastGeneratedAt
          then r.count else 0) ∧
    (∀ (cache : Option QuotaRecord) (now limit : Nat),
      tryConsume cache now limit = Except.error QuotaError.quotaExceeded
        ↔ limit ≤ currentCount cache now) ∧
    (∀ (cache : Option QuotaRecord) (now limit : Nat) (rec2 : QuotaRecord),
      tryConsume cache now limit = Except.ok rec2 →
      rec2.count = currentCount cache now + 1 ∧ rec2.lastGeneratedAt = now) ∧
    (tryConsume none 100 3 = Except.ok ⟨1, 100⟩ ∧
     tryConsume (some ⟨1, 100⟩) 200 3 = Except.ok ⟨2, 200⟩ ∧
     tryConsume (some ⟨2, 200⟩) 300 3 = Except.ok ⟨3, 300⟩ ∧
     tryConsume (some ⟨3, 300⟩) 400 3 = Except.error QuotaError.quotaExceeded ∧
     tryConsume (some ⟨3, 300⟩) 1500 3 = Except.ok ⟨1, 1500⟩) := by
  refine ⟨?_, ?_, ?_, ?_⟩
  · intro r now
    have hiff : startOfDay now ≤ r.lastGeneratedAt
        ↔ (r.lastGeneratedAt / minutesPerDay = now / minutesPerDay
           ∨ startOfDay now < startOfDay r.lastGeneratedAt) := by
      unfold startOfDay minutesPerDay
      omega
    simp only [currentCount, sameLocalDay, beq_iff_eq]
    by_cases h : startOfDay now ≤ r.lastGeneratedAt
    · rw [if_pos h, if_pos (hiff.mp h)]
    · rw [if_neg h, if_neg (fun hc => h (hiff.mpr hc))]
  · intro cache now limit
    unfold tryConsume
    by_cases h : limit ≤ currentCount cache now
    · rw [if_pos h]
      exact ⟨fun _ => h, fun _ => rfl⟩
    · rw [if_neg h]
      exact ⟨fun hc => absurd hc (fun hcon => Except.noConfusion hcon),
             fun hc => absurd hc h⟩
  · intro cache now limit rec2 hok
    unfold tryConsume at hok
    by_cases h : limit ≤ currentCount cache now
    · rw [if_pos h] at hok
      exact absurd hok (fun hcon => Except.noConfusion hcon)
    · rw [if_neg h] at hok
      injection hok with hok2
      rw [← hok2]
      exact ⟨rfl, rfl⟩
  · refine ⟨?_, ?_, ?_, ?_, ?_⟩ <;> decide

/-- Witness for the amended C4: the failure characterization applied at a
concrete exhausted record on the same local day. -/
theorem quota_counting_amended_witness :
    tryConsume (some ⟨3, 50⟩) 60 3 = Except.error QuotaError.quotaExceeded :=
  (quota_counting_amended.2.1 (some ⟨3, 50⟩) 60 3).mpr (by decide)

/-- C5: when an image-generation request is rejected with `QuotaExceeded` or
with `LoginRequired`, the rejection happens before any remote call (no remote
invocation), appends no chat message (registry unchanged), and mutates
neither the in-memory quota cache nor the external per-user record (no merge
write); and `LoginRequired` is raised before the quota is consulted at all. -/
theorem image_gen_rejection_no_mutation (reg : Registry)
    (closureActive : Option ChatSession) (inputValue : String) (busy : Bool)
    (apiKey currentUser : Option String) (cache : Option QuotaRecord) (now : Nat)
    (genResult : Except Unit String) (userMsgId aiMessageId : String)
    (prevError : Option String)
    (hrej : (handleGenerateImage reg closureActive inputValue busy apiKey currentUser
        cache now genResult userMsgId aiMessageId prevError).outcome
          = ImageGenOutcome.quotaExceeded
      ∨ (handleGenerateImage reg closureActive inputValue busy apiKey currentUser
        cache now genResult userMsgId aiMessageId prevError).outcome
          = ImageGenOutcome.loginRequired) :
    (handleGenerateImage reg closureActive inputValue busy apiKey currentUser
      cache now genResult userMsgId aiMessageId prevError).remoteCalled = false ∧
    (handleGenerateImage reg closureActive inputValue busy apiKey currentUser
      cache now genResult userMsgId aiMessageId prevError).reg = reg ∧
    (handleGenerateImage reg closureActive inputValue busy apiKey currentUser
      cache now genResult userMsgId aiMessageId prevError).cache = cache ∧
    (handleGenerateImage reg closureActive inputValue busy apiKey currentUser
      cache now genResult userMsgId aiMessageId prevError).storeWrite = none ∧
    ((handleGenerateImage reg closureActive inputValue busy apiKey currentUser
        cache now genResult userMsgId aiMessageId prevError).outcome
          = ImageGenOutcome.loginRequired →
      (handleGenerateImage reg closureActive inputValue busy apiKey currentUser
        cache now genResult userMsgId aiMessageId prevError).quotaConsulted = false) := by
  simp only [handleGenerateImage] at hrej ⊢
  split_ifs at hrej ⊢ with h1 h2 h3 h4
  · exact ⟨rfl, rfl, rfl, rfl, fun _ => rfl⟩
  · exact ⟨rfl, rfl, rfl, rfl, fun _ => rfl⟩
  · exact ⟨rfl, rfl, rfl, rfl, fun _ => rfl⟩
  · exact ⟨rfl, rfl, rfl, rfl, fun hc => absurd hc (by simp)⟩
  · rcases genResult with e | v
    · simp only [] at hrej
      rcases hrej with hrej | hrej <;> exact absurd hrej (by simp)
    · simp only [] at hrej
      rcases hrej with hrej | hrej <;> exact absurd hrej (by simp)

/-- Witness for C5: a logged-in user with an exhausted same-day quota is
rejected with `QuotaExceeded`, with no remote call and no mutation. -/
theorem image_gen_rejection_no_mutation_witness :
    (handleGenerateImage [] none "draw a cat" false (some "k") (some "u")
      (some ⟨3, 30⟩) 40 (Except.ok "img") "u1" "a1" none).remoteCalled = false ∧
    (handleGenerateImage [] none "draw a cat" false (some "k") (some "u")
      (some ⟨3, 30⟩) 40 (Except.ok "img") "u1" "a1" none).reg = [] ∧
    (handleGenerateImage [] none "draw a cat" false (some "k") (some "u")
      (some ⟨3, 30⟩) 40 (Except.ok "img") "u1" "a1" none).cache = some ⟨3, 30⟩ ∧
    (handleGenerateImage [] none "draw a cat" false (some "k") (some "u")
      (some ⟨3, 30⟩) 40 (Except.ok "img") "u1" "a1" none).storeWrite = none := by
  have h := image_gen_rejection_no_mutation [] none "draw a cat" false (some "k") (some "u")
    (some ⟨3, 30⟩) 40 (Except.ok "img") "u1" "a1" none (Or.inl (by decide))
  exact ⟨h.1, h.2.1, h.2.2.1, h.2.2.2.1⟩

/-- C6: on every rebind the replayed history is exactly the session's
messages in original order with the welcome message (identified by its
reserved id marker) and every empty-text message excluded, sender `User`
mapped to role `"user"` and sender `AI` mapped to role `"model"`.  The
hypothesis states that only AI-sent messages carry the reserved welcome
marker in their id, which holds for every session this client builds. -/
theorem replay_filtering_correct (msgs : List ChatMessage)
    (hwf : ∀ m ∈ msgs, strContains m.id WELCOME_ID_MARKER = true → m.sender = Sender.ai) :
    replayHistory msgs
      = (msgs.filter (fun m => !(strContains m.id WELCOME_ID_MARKER) && m.text != "")).map
          (fun m => { role := toRole m.sender, text := m.text }) ∧
    toRole Sender.user = "user" ∧ toRole Sender.ai = "model" := by
  refine ⟨?_, by decide, by decide⟩
  unfold replayHistory
  have hfilter : msgs.filter replayKeep
      = msgs.filter (fun m => !(strContains m.id WELCOME_ID_MARKER) && m.text != "") := by
    apply List.filter_congr
    intro m hm
    unfold replayKeep
    cases hsend : m.sender
    · have hnc : strContains m.id WELCOME_ID_MARKER = false := by
        rcases hx : strContains m.id WELCOME_ID_MARKER with _ | _
        · rfl
        · have := hwf m hm hx
          rw [hsend] at this
          cases this
      simp [hnc]
    · rcases hx : strContains m.id WELCOME_ID_MARKER with _ | _ <;> simp [hx]
  rw [hfilter]

/-- Witness for C6 on the spec's example: a session
`[welcome-AI, user:"hi", AI:"hello"]` replays exactly
`[user:"hi", AI:"hello"]`. -/
theorem replay_filtering_correct_witness :
    replayHistory
      [{ id := "5_ai_welcome", text := "welcome", sender := Sender.ai, timestamp := 0 },
       { id := "6_user", text := "hi", sender := Sender.user, timestamp := 1 },
       { id := "7_ai", text := "hello", sender := Sender.ai, timestamp := 2 }]
      = [{ role := "user", text := "hi" }, { role := "model", text := "hello" }] := by
  have h := (replay_filtering_correct
    [{ id := "5_ai_welcome", text := "welcome", sender := Sender.ai, timestamp := 0 },
     { id := "6_user", text := "hi", sender := Sender.user, timestamp := 1 },
     { id := "7_ai", text := "hello", sender := Sender.ai, timestamp := 2 }]
    (by decide)).1
  exact h.trans (by decide)

/-- The title backfill never changes a session's id. -/
theorem backfillTitle_id (s : ChatSession) : (backfillTitle s).id = s.id := by
  unfold backfillTitle
  split
  · rfl
  · rfl

theorem findSession_of_mem (l : Registry) (x : ChatSession)
    (hx : x ∈ l.map Prod.snd) (hwf : ∀ p ∈ l, p.1 = p.2.id) :
    (findSession l x.id).isSome = true := by
  induction l with
  | nil => simp at hx
  | cons p rest ih =>
    simp only [List.map_cons] at hx
    rcases List.mem_cons.mp hx with h | h
    · have hid : p.1 = x.id := by
        rw [hwf p (List.mem_cons_self p rest), h]
      simp [findSession, hid]
    · by_cases hk : p.1 = x.id
      · simp [findSession, hk]
      · have := ih h (fun q hq => hwf q (List.mem_cons_of_mem p hq))
        simpa [findSession, hk] using this

theorem chooseFallback_resolvable (loaded : Registry) (sl : Option String)
    (fresh : ChatSession) (s : ChatSession)
    (h : (chooseFallback loaded sl fresh).2.2 = some s) :
    (findSession (chooseFallback loaded sl fresh).1
      (chooseFallback loaded sl fresh).2.1).isSome = true := by
  unfold chooseFallback at h ⊢
  by_cases hc : 0 < loaded.length ∧ sl = none
  · rw [if_pos hc] at h ⊢
    rcases hm : mostRecent (loaded.map Prod.snd) with _ | v2
    · rw [hm] at h
      exact absurd h (by simp)
    · rw [hm] at h
      dsimp only at h ⊢
      rw [h]
      rfl
  · rw [if_neg hc] at h ⊢
    dsimp only
    rw [findSession_setSession_self]
    rfl

theorem chooseActive_resolvable (loaded : Registry) (sa sl : Option String)
    (fresh : ChatSession) (s : ChatSession)
    (h : (chooseActive loaded sa sl fresh).2.2 = some s) :
    (findSession (chooseActive loaded sa sl fresh).1
      (chooseActive loaded sa sl fresh).2.1).isSome = true := by
  unfold chooseActive at h ⊢
  rcases sa with _ | a
  · exact chooseFallback_resolvable loaded sl fresh s h
  · dsimp only at h ⊢
    rcases hf : findSession loaded a with _ | v
    · rw [hf] at h
      dsimp only at h ⊢
      exact chooseFallback_resolvable loaded sl fresh s h
    · dsimp only
      rw [hf]
      rfl

theorem init_resolvable (apiKey : Option String) (stored : Option (Except Unit Registry))
    (storedActiveId sessionIdToLoad : Option String) (fresh : ChatSession) :
    (findSession
      (initializeChatLogic apiKey stored storedActiveId sessionIdToLoad fresh).sessions
      (initializeChatLogic apiKey stored storedActiveId sessionIdToLoad fresh).activeChatId).isSome
      = true := by
  rcases apiKey with _ | k
  · simp [initializeChatLogic, findSession]
  · rcases stored with _ | exc
    · simp only [initializeChatLogic]
      rcases h22 : (chooseActive (loadStored none)
          (match sessionIdToLoad with | some s => some s | none => storedActiveId)
          sessionIdToLoad fresh).2.2 with _ | v
      · simp [findSession]
      · dsimp only
        exact chooseActive_resolvable _ _ _ _ v h22
    · rcases exc with e | reg0
      · simp [initializeChatLogic, findSession]
      · simp only [initializeChatLogic]
        rcases h22 : (chooseActive (loadStored (some (Except.ok reg0)))
            (match sessionIdToLoad with | some s => some s | none => storedActiveId)
            sessionIdToLoad fresh).2.2 with _ | v
        · simp [findSession]
        · dsimp only
          exact chooseActive_resolvable _ _ _ _ v h22

/-- C7: for every stored state (absent, empty, or unparseable), loading the
registry ends with exactly one resolvable active session (first conjunct,
over all inputs including a missing credential).  A parse failure is caught,
reported once as the initialization error, the corrupt state discarded, and a
brand-new session synthesized (second conjunct).  An empty registry gets one
fresh session (third conjunct).  A recorded active id that no longer resolves
selects the most-recently-active loaded session by timestamp descending
(fourth conjunct, for registries whose keys match their sessions' ids, as
this client writes them). -/
theorem load_all_recovery :
    (∀ (apiKey : Option String) (stored : Option (Except Unit Registry))
       (storedActiveId sessionIdToLoad : Option String) (fresh : ChatSession),
      (findSession
        (initializeChatLogic apiKey stored storedActiveId sessionIdToLoad fresh).sessions
        (initializeChatLogic apiKey stored storedActiveId sessionIdToLoad fresh).activeChatId).isSome
        = true) ∧
    (∀ (k : String) (e : Unit) (storedActiveId sessionIdToLoad : Option String)
       (fresh : ChatSession),
      initializeChatLogic (some k) (some (Except.error e)) storedActiveId
          sessionIdToLoad fresh
        = { sessions := [(fresh.id, fresh)], activeChatId := fresh.id,
            globalError := some ERROR_INIT_FAILED_BN, geminiBound := true }) ∧
    (∀ (k : String) (storedActiveId : Option String) (fresh : ChatSession),
      initializeChatLogic (some k) none storedActiveId none fresh
        = { sessions := [(fresh.id, fresh)], activeChatId := fresh.id,
            globalError := none, geminiBound := true }) ∧
    (∀ (k : String) (reg0 : Registry) (badId : String) (fresh : ChatSession),
      (∀ p ∈ reg0, p.1 = p.2.id) → reg0 ≠ [] →
      findSession (reg0.map (fun p => (p.1, backfillTitle p.2))) badId = none →
      ∃ s, mostRecent ((reg0.map (fun p => (p.1, backfillTitle p.2))).map Prod.snd) = some s ∧
        (initializeChatLogic (some k) (some (Except.ok reg0)) (some badId) none fresh).activeChatId
          = s.id ∧
        (initializeChatLogic (some k) (some (Except.ok reg0)) (some badId) none fresh).sessions
          = reg0.map (fun p => (p.1, backfillTitle p.2)) ∧
        (initializeChatLogic (some k) (some (Except.ok reg0)) (some badId) none fresh).globalError
          = none ∧
        s ∈ (reg0.map (fun p => (p.1, backfillTitle p.2))).map Prod.snd ∧
        ∀ x ∈ (reg0.map (fun p => (p.1, backfillTitle p.2))).map Prod.snd,
          x.timestamp ≤ s.timestamp) := by
  refine ⟨init_resolvable, ?_, ?_, ?_⟩
  · intro k e storedActiveId sessionIdToLoad fresh
    rfl
  · intro k storedActiveId fresh
    rcases storedActiveId with _ | a <;> rfl
  · intro k reg0 badId fresh hwf hne hbad
    have hwfL : ∀ p ∈ reg0.map (fun p => (p.1, backfillTitle p.2)), p.1 = p.2.id := by
      intro p hp
      rcases List.mem_map.mp hp with ⟨q, hq, rfl⟩
      show q.1 = (backfillTitle q.2).id
      rw [backfillTitle_id]
      exact hwf q hq
    have hlen : 0 < (reg0.map (fun p => (p.1, backfillTitle p.2))).length := by
      rw [List.length_map]
      exact List.length_pos.mpr hne
    obtain ⟨s, hs⟩ : ∃ s,
        mostRecent ((reg0.map (fun p => (p.1, backfillTitle p.2))).map Prod.snd) = some s := by
      rcases reg0 with _ | ⟨p, rest⟩
      · exact absurd rfl hne
      · exact ⟨_, rfl⟩
    obtain ⟨hmem, hmax⟩ := mostRecent_spec _ s hs
    have hfindS := findSession_of_mem _ s hmem hwfL
    have hCA : chooseActive (reg0.map (fun p => (p.1, backfillTitle p.2)))
        (some badId) none fresh
        = (reg0.map (fun p => (p.1, backfillTitle p.2)), s.id,
           findSession (reg0.map (fun p => (p.1, backfillTitle p.2))) s.id) := by
      unfold chooseActive
      dsimp only
      rw [hbad]
      unfold chooseFallback
      rw [if_pos ⟨hlen, rfl⟩, hs]
    rcases hv : findSession (reg0.map (fun p => (p.1, backfillTitle p.2))) s.id with _ | v
    · rw [hv] at hfindS
      simp at hfindS
    · have hmain : initializeChatLogic (some k) (some (Except.ok reg0)) (some badId) none fresh
          = { sessions := reg0.map (fun p => (p.1, backfillTitle p.2)), activeChatId := s.id,
              globalError := none, geminiBound := true } := by
        simp only [initializeChatLogic, loadStored]
        rw [hCA]
        dsimp only
        rw [hv]
      exact ⟨s, hs, by rw [hmain], by rw [hmain], by rw [hmain], hmem, hmax⟩

/-- Witness for C7: a stored registry with two sessions and an unresolvable
active id loads with the most recent session (timestamp 9) active. -/
theorem load_all_recovery_witness :
    (initializeChatLogic (some "k")
      (some (Except.ok
        [("o", { id := "o", title := "a", messages := [], model := ModelType.b1Regular,
                 timestamp := 3, systemInstruction := "SI" }),
         ("n", { id := "n", title := "b", messages := [], model := ModelType.b1Regular,
                 timestamp := 9, systemInstruction := "SI" })]))
      (some "zzz") none
      (createNewChatSessionObject ModelType.b1Regular none none none 77)).activeChatId
      = "n" := by
  obtain ⟨s, hs, hact, _⟩ := load_all_recovery.2.2.2 "k"
    [("o", { id := "o", title := "a", messages := [], model := ModelType.b1Regular,
             timestamp := 3, systemInstruction := "SI" }),
     ("n", { id := "n", title := "b", messages := [], model := ModelType.b1Regular,
             timestamp := 9, systemInstruction := "SI" })]
    "zzz" (createNewChatSessionObject ModelType.b1Regular none none none 77)
    (by decide) (by decide) (by decide)
  rw [hact]
  have hseq : s = { id := "n", title := "b", messages := [], model := ModelType.b1Regular,
                    timestamp := 9, systemInstruction := "SI" } :=
    Option.some.inj (hs.symm.trans (by decide))
  rw [hseq]

/-- C10: changing the model selection never mutates an existing session.
If the chosen model equals the active session's model nothing happens; and
otherwise a brand-new session (fresh id `toString now`, seeded welcome
message, default title, and the system instruction of the new model) is
appended and made active, while every other key — including the previously
active session — still looks up to exactly what it held before.  The
freshness hypothesis states that `Date.now()` does not collide with an
existing session id. -/
theorem model_change_frame (reg : Registry) (aid : String) (s : ChatSession)
    (newModel : ModelType) (now : Nat)
    (hs : findSession reg aid = some s) :
    (s.model = newModel →
      handleModelChangeOnSidebar reg (some aid) newModel now = (reg, some aid)) ∧
    (s.model ≠ newModel →
      findSession reg (toString now) = none →
      (handleModelChangeOnSidebar reg (some aid) newModel now).1
          = reg ++ [(toString now, createNewChatSessionObject newModel none none none now)] ∧
      (handleModelChangeOnSidebar reg (some aid) newModel now).2 = some (toString now) ∧
      (∀ k2, k2 ≠ toString now →
        findSession (handleModelChangeOnSidebar reg (some aid) newModel now).1 k2
          = findSession reg k2) ∧
      (createNewChatSessionObject newModel none none none now).messages
        = [welcomeMessage newModel now] ∧
      (createNewChatSessionObject newModel none none none now).title
        = DEFAULT_CHAT_TITLE_BN ∧
      (createNewChatSessionObject newModel none none none now).systemInstruction
        = getSystemInstruction newModel) := by
  constructor
  · intro heq
    unfold handleModelChangeOnSidebar
    dsimp only
    rw [hs]
    rw [if_neg (fun hcon => hcon (by simp only [Option.map_some']; rw [heq]))]
  · intro hne hfresh
    have hcond : (findSession reg aid).map ChatSession.model ≠ some newModel := by
      rw [hs]
      simp only [Option.map_some']
      intro hcon
      exact hne (Option.some.inj hcon)
    have hid : (createNewChatSessionObject newModel none none none now).id
        = toString now := rfl
    have hset : setSession reg (toString now)
        (createNewChatSessionObject newModel none none none now)
        = reg ++ [(toString now, createNewChatSessionObject newModel none none none now)] := by
      unfold setSession
      rw [if_neg (by rw [hfresh]; simp)]
    have hmain : handleModelChangeOnSidebar reg (some aid) newModel now
        = (reg ++ [(toString now, createNewChatSessionObject newModel none none none now)],
           some (toString now)) := by
      unfold handleModelChangeOnSidebar startNewChat
      dsimp only
      rw [if_pos hcond, hid, hset]
    refine ⟨by rw [hmain], by rw [hmain], ?_, rfl, rfl, rfl⟩
    intro k2 hk2
    rw [hmain]
    dsimp only
    rw [← hset]
    exact findSession_setSession_other reg (toString now) _ k2 hk2

/-- Witness for C10: switching a one-session registry to the coding model at
time 55 appends the fresh session `"55"` and leaves session `"s1"` exactly as
it was; selecting the same model changes nothing. -/
theorem model_change_frame_witness :
    (handleModelChangeOnSidebar
        [("s1", { id := "s1", title := "T", messages := [], model := ModelType.b1Regular,
                  timestamp := 0, systemInstruction := "SI" })]
        (some "s1") ModelType.b1Regular 55
      = ([("s1", { id := "s1", title := "T", messages := [], model := ModelType.b1Regular,
                   timestamp := 0, systemInstruction := "SI" })], some "s1")) ∧
    (findSession (handleModelChangeOnSidebar
        [("s1", { id := "s1", title := "T", messages := [], model := ModelType.b1Regular,
                  timestamp := 0, systemInstruction := "SI" })]
        (some "s1") ModelType.b2Coding 55).1 "s1"
      = some { id := "s1", title := "T", messages := [], model := ModelType.b1Regular,
               timestamp := 0, systemInstruction := "SI" }) := by
  have h := model_change_frame
    [("s1", { id := "s1", title := "T", messages := [], model := ModelType.b1Regular,
              timestamp := 0, systemInstruction := "SI" })]
    "s1"
    { id := "s1", title := "T", messages := [], model := ModelType.b1Regular,
      timestamp := 0, systemInstruction := "SI" }
    ModelType.b1Regular 55 (by rfl)
  have h2 := model_change_frame
    [("s1", { id := "s1", title := "T", messages := [], model := ModelType.b1Regular,
              timestamp := 0, systemInstruction := "SI" })]
    "s1"
    { id := "s1", title := "T", messages := [], model := ModelType.b1Regular,
      timestamp := 0, systemInstruction := "SI" }
    ModelType.b2Coding 55 (by rfl)
  refine ⟨h.1 rfl, ?_⟩
  obtain ⟨-, -, hframe, -⟩ := h2.2 (by decide) (by decide)
  rw [hframe "s1" (by decide)]
  rfl

theorem autoTitle_ne_default (msgs : List ChatMessage) (T : String)
    (hTd : T ≠ DEFAULT_CHAT_TITLE_BN) : autoTitle msgs T = T := by
  unfold autoTitle
  rw [if_neg]
  intro hc
  exact hTd hc.2

set_option maxHeartbeats 1000000 in
theorem sendPipeline_result (reg : Registry) (s : ChatSession) (k : String)
    (inputValue userMsgId aiMessageId : String) (now : Nat)
    (chunks : List String) (streamError : Option SendError) (prevError : Option String)
    (T : String)
    (hs : findSession reg s.id = some s)
    (ht : ¬(jsTrim inputValue = ""))
    (hfresh : ∀ m ∈ s.messages ++
        [{ id := userMsgId, text := jsTrim inputValue, sender := Sender.user,
           timestamp := now, isImageQuery := false }], ¬((m.id == aiMessageId) = true))
    (hT : computeTitle
        (if s.title = DEFAULT_CHAT_TITLE_BN
         then some (deriveTitle (jsTrim inputValue)) else none)
        (s.messages ++
          [{ id := userMsgId, text := jsTrim inputValue, sender := Sender.user,
             timestamp := now, isImageQuery := false }]) s.title = T)
    (hTd : T ≠ DEFAULT_CHAT_TITLE_BN) :
    ∃ s2, findSession (handleSendMessage reg (some s) true (some k) inputValue false false
        userMsgId aiMessageId now chunks streamError prevError).reg s.id = some s2 ∧
      s2.title = T ∧
      placeholderText aiMessageId s2.messages
        = some (match streamError with
                | some e => errorTextOf e
                | none => concatChunks chunks) ∧
      (handleSendMessage reg (some s) true (some k) inputValue false false
        userMsgId aiMessageId now chunks streamError prevError).globalError
        = (match streamError with | some e => some (errorTextOf e) | none => none) ∧
      (handleSendMessage reg (some s) true (some k) inputValue false false
        userMsgId aiMessageId now chunks streamError prevError).remoteCalled = true := by
  simp only [handleSendMessage, Option.map_some', Option.getD_some, not_false_iff,
    and_true, or_false, if_neg ht, if_pos ht, if_false, Option.isNone_some,
    Bool.false_eq_true, ite_false, not_true]
  have h1 := updateCSM_lookup reg s.id
    (fun prev => prev ++
      [{ id := userMsgId, text := jsTrim inputValue, sender := Sender.user,
         timestamp := now, isImageQuery := false }])
    (if s.title = DEFAULT_CHAT_TITLE_BN
     then some (deriveTitle (jsTrim inputValue)) else none)
    now s hs
  rw [hT] at h1
  have h2 := updateCSM_title_preserved
    (updateCurrentSessionMessages reg (some s.id)
      (fun prev => prev ++
        [{ id := userMsgId, text := jsTrim inputValue, sender := Sender.user,
           timestamp := now, isImageQuery := false }])
      (if s.title = DEFAULT_CHAT_TITLE_BN
       then some (deriveTitle (jsTrim inputValue)) else none)
      now)
    s.id
    (fun prev => prev ++
      [{ id := aiMessageId, text := "", sender := Sender.ai,
         timestamp := now, modelUsed := some s.model }])
    now _ h1 hTd
  have hph : ((s.messages ++
      [({ id := userMsgId, text := jsTrim inputValue, sender := Sender.user,
          timestamp := now, isImageQuery := false } : ChatMessage)]) ++
      [({ id := aiMessageId, text := "", sender := Sender.ai,
          timestamp := now, modelUsed := some s.model } : ChatMessage)]).find?
        (fun x => x.id == aiMessageId)
      = some ({ id := aiMessageId, text := "", sender := Sender.ai,
                timestamp := now, modelUsed := some s.model } : ChatMessage) :=
    find?_append_single _ _ aiMessageId hfresh (beq_self_eq_true aiMessageId)
  obtain ⟨s3, m3, g1, g2, g3⟩ := deliver_fold_placeholder chunks _ s.id s.model
    aiMessageId now _ _ h2 hph
  obtain ⟨s3t, gt1, gt2⟩ := deliver_fold_title chunks _ s.id s.model aiMessageId now _ h2 hTd
  have hmerge : s3t = s3 := Option.some.inj (gt1.symm.trans g1)
  rw [hmerge] at gt2
  have hm3text : m3.text = concatChunks chunks := by
    rw [g3]
    exact String.empty_append _
  rcases streamError with _ | e
  · obtain ⟨s4, f1, f2, f3⟩ := stream_step_lookup _ s.id s.model aiMessageId "" true now
      s3 m3 g1 g2
    refine ⟨s4, ?_, ?_, ?_, rfl, rfl⟩
    · exact f1
    · rw [f3, gt2]
      exact autoTitle_ne_default _ T hTd
    · unfold placeholderText
      rw [f2]
      simp only [Option.map_some']
      rw [String.append_empty, hm3text]
  · have h4 := updateCSM_title_preserved _ s.id
      (fun prev => prev.map (fun msg =>
        if msg.id == aiMessageId
        then { msg with text := errorTextOf e, modelUsed := some s.model }
        else msg))
      now s3 g1 (by rw [gt2]; exact hTd)
    have hfo := find?_overwrite s3.messages aiMessageId (errorTextOf e) s.model m3 g2
    refine ⟨{ s3 with
              messages := s3.messages.map (fun msg =>
                if msg.id == aiMessageId
                then { msg with text := errorTextOf e, modelUsed := some s.model }
                else msg)
              title := s3.title
              timestamp := now }, ?_, ?_, ?_, rfl, rfl⟩
    · show findSession (finalizeError _ (some s.id) s.model aiMessageId (errorTextOf e) now)
        s.id = _
      unfold finalizeError
      exact h4
    · show s3.title = T
      exact gt2
    · show placeholderText aiMessageId (s3.messages.map (fun msg =>
        if msg.id == aiMessageId
        then { msg with text := errorTextOf e, modelUsed := some s.model }
        else msg)) = _
      unfold placeholderText
      rw [hfo]
      rfl

set_option maxRecDepth 8000 in
/-- C3 as stated is false at a concrete input: backfilling a missing title in
`loadAll` from a 40-character first user message yields its first 30
characters with no ellipsis marker, not the first 35 characters plus the
marker that the claim demands (and that the send path produces). -/
theorem title_derivation_cex :
    (backfillTitle
      { id := "s", title := "",
        messages := [{ id := "1_user", text := String.mk (List.replicate 40 'a'),
                       sender := Sender.user, timestamp := 0 }],
        model := ModelType.b1Regular, timestamp := 0, systemInstruction := "SI" }).title
      = String.mk (List.replicate 30 'a') ∧
    deriveTitle (String.mk (List.replicate 40 'a'))
      = String.mk (List.replicate 35 'a') ++ "..." ∧
    (backfillTitle
      { id := "s", title := "",
        messages := [{ id := "1_user", text := String.mk (List.replicate 40 'a'),
                       sender := Sender.user, timestamp := 0 }],
        model := ModelType.b1Regular, timestamp := 0, systemInstruction := "SI" }).title
      ≠ deriveTitle (String.mk (List.replicate 40 'a')) := by
  refine ⟨?_, ?_, ?_⟩ <;> decide

set_option maxRecDepth 8000 in
set_option maxHeartbeats 1000000 in
/-- C3 amended: on the first send into a default-titled session the title is
set to the first 35 characters of the user message with an ellipsis marker
appended exactly when the text is longer than 35 characters, and that title
survives the whole streamed exchange (first conjunct); any send into a
session whose title is no longer the default leaves the title unchanged, so a
second user message never overwrites it (second conjunct); but the `loadAll`
backfill of a missing title instead uses the first 30 characters of the first
user message's text with no ellipsis marker (third conjunct). -/
theorem title_derivation_amended :
    (∀ (reg : Registry) (s : ChatSession) (k inputValue userMsgId aiMessageId : String)
       (now : Nat) (chunks : List String) (streamError : Option SendError)
       (prevError : Option String),
      findSession reg s.id = some s →
      s.title = DEFAULT_CHAT_TITLE_BN →
      ¬(jsTrim inputValue = "") →
      deriveTitle (jsTrim inputValue) ≠ "" →
      deriveTitle (jsTrim inputValue) ≠ DEFAULT_CHAT_TITLE_BN →
      (∀ m ∈ s.messages ++
          [({ id := userMsgId, text := jsTrim inputValue, sender := Sender.user,
              timestamp := now, isImageQuery := false } : ChatMessage)],
        ¬((m.id == aiMessageId) = true)) →
      ∃ s2, findSession (handleSendMessage reg (some s) true (some k) inputValue false false
          userMsgId aiMessageId now chunks streamError prevError).reg s.id = some s2 ∧
        s2.title = deriveTitle (jsTrim inputValue) ∧
        deriveTitle (jsTrim inputValue)
          = (jsTrim inputValue).take 35
            ++ (if 35 < (jsTrim inputValue).length then "..." else "")) ∧
    (∀ (reg : Registry) (s : ChatSession) (k inputValue userMsgId aiMessageId : String)
       (now : Nat) (chunks : List String) (streamError : Option SendError)
       (prevError : Option String),
      findSession reg s.id = some s →
      s.title ≠ DEFAULT_CHAT_TITLE_BN →
      ¬(jsTrim inputValue = "") →
      (∀ m ∈ s.messages ++
          [({ id := userMsgId, text := jsTrim inputValue, sender := Sender.user,
              timestamp := now, isImageQuery := false } : ChatMessage)],
        ¬((m.id == aiMessageId) = true)) →
      ∃ s2, findSession (handleSendMessage reg (some s) true (some k) inputValue false false
          userMsgId aiMessageId now chunks streamError prevError).reg s.id = some s2 ∧
        s2.title = s.title) ∧
    (∀ (k key : String) (sess : ChatSession) (um : ChatMessage) (fresh : ChatSession),
      sess.title = "" →
      sess.messages.find? (fun m => decide (m.sender = Sender.user)) = some um →
      ¬(um.text.take 30 = "") →
      findSession (initializeChatLogic (some k) (some (Except.ok [(key, sess)]))
          (some key) none fresh).sessions key
        = some { sess with title := um.text.take 30 } ∧
      (initializeChatLogic (some k) (some (Except.ok [(key, sess)]))
          (some key) none fresh).activeChatId = key) := by
  refine ⟨?_, ?_, ?_⟩
  · intro reg s k inputValue userMsgId aiMessageId now chunks streamError prevError
      hs hdef ht hd hdne hfresh
    have hT : computeTitle
        (if s.title = DEFAULT_CHAT_TITLE_BN
         then some (deriveTitle (jsTrim inputValue)) else none)
        (s.messages ++
          [{ id := userMsgId, text := jsTrim inputValue, sender := Sender.user,
             timestamp := now, isImageQuery := false }]) s.title
        = deriveTitle (jsTrim inputValue) := by
      rw [if_pos hdef]
      unfold computeTitle
      exact if_neg hd
    obtain ⟨s2, h1, h2, _, _⟩ := sendPipeline_result reg s k inputValue userMsgId
      aiMessageId now chunks streamError prevError (deriveTitle (jsTrim inputValue))
      hs ht hfresh hT hdne
    exact ⟨s2, h1, h2, rfl⟩
  · intro reg s k inputValue userMsgId aiMessageId now chunks streamError prevError
      hs hnd ht hfresh
    have hT : computeTitle
        (if s.title = DEFAULT_CHAT_TITLE_BN
         then some (deriveTitle (jsTrim inputValue)) else none)
        (s.messages ++
          [{ id := userMsgId, text := jsTrim inputValue, sender := Sender.user,
             timestamp := now, isImageQuery := false }]) s.title
        = s.title := by
      rw [if_neg hnd]
      exact autoTitle_ne_default _ s.title hnd
    obtain ⟨s2, h1, h2, _, _⟩ := sendPipeline_result reg s k inputValue userMsgId
      aiMessageId now chunks streamError prevError s.title hs ht hfresh hT hnd
    exact ⟨s2, h1, h2⟩
  · intro k key sess um fresh h0 hfind hne30
    have hbf : backfillTitle sess = { sess with title := um.text.take 30 } := by
      unfold backfillTitle
      rw [if_pos h0, hfind]
      dsimp only
      rw [if_neg hne30]
    have hCA : chooseActive [(key, backfillTitle sess)] (some key) none fresh
        = ([(key, backfillTitle sess)], key, some (backfillTitle sess)) := by
      unfold chooseActive
      dsimp only
      rw [show findSession [(key, backfillTitle sess)] key = some (backfillTitle sess)
        from by simp [findSession]]
    have hmain : initializeChatLogic (some k) (some (Except.ok [(key, sess)]))
        (some key) none fresh
        = { sessions := [(key, backfillTitle sess)], activeChatId := key,
            globalError := none, geminiBound := true } := by
      simp only [initializeChatLogic, loadStored, List.map_cons, List.map_nil]
      rw [hCA]
    rw [hmain, hbf]
    exact ⟨by simp [findSession], rfl⟩

set_option maxRecDepth 8000 in
set_option maxHeartbeats 1000000 in
/-- Witness for the amended C3: sending `"Hello"` into a default-titled
session sets the title to `"Hello"` (35-character truncation without a
marker), and the backfill clause applied to a stored session titles it with
the first 30 characters. -/
theorem title_derivation_amended_witness :
    ((findSession (handleSendMessage
        [("s1", { id := "s1", title := DEFAULT_CHAT_TITLE_BN, messages := [],
                  model := ModelType.b1Regular, timestamp := 0, systemInstruction := "SI" })]
        (some { id := "s1", title := DEFAULT_CHAT_TITLE_BN, messages := [],
                model := ModelType.b1Regular, timestamp := 0, systemInstruction := "SI" })
        true (some "k") "Hello" false false "u1" "a1" 7 ["x"] none none).reg "s1").map
      (fun s => s.title)) = some "Hello" := by
  obtain ⟨s2, h1, h2, _⟩ := title_derivation_amended.1
    [("s1", { id := "s1", title := DEFAULT_CHAT_TITLE_BN, messages := [],
              model := ModelType.b1Regular, timestamp := 0, systemInstruction := "SI" })]
    { id := "s1", title := DEFAULT_CHAT_TITLE_BN, messages := [],
      model := ModelType.b1Regular, timestamp := 0, systemInstruction := "SI" }
    "k" "Hello" "u1" "a1" 7 ["x"] none none
    (by rfl) (by rfl) (by decide) (by decide) (by decide) (by decide)
  rw [h1]
  simp only [Option.map_some']
  rw [h2]
  rfl

set_option maxHeartbeats 1000000 in
/-- C8: whenever a streaming send fails, the placeholder's text is
overwritten with the user-facing error text — the invalid-credential message
when the provider reported an invalid key, the generic send-failure message
otherwise — the same text is surfaced on the global error channel, and the
partially accumulated streamed text is discarded: the final text equals the
error text alone for EVERY fragment list `chunks` delivered before the
failure. -/
theorem stream_failure_overwrite (reg : Registry) (s : ChatSession)
    (k inputValue userMsgId aiMessageId : String) (now : Nat)
    (chunks : List String) (e : SendError) (prevError : Option String)
    (hs : findSession reg s.id = some s)
    (ht : ¬(jsTrim inputValue = ""))
    (hfresh : ∀ m ∈ s.messages ++
        [({ id := userMsgId, text := jsTrim inputValue, sender := Sender.user,
            timestamp := now, isImageQuery := false } : ChatMessage)],
      ¬((m.id == aiMessageId) = true)) :
    (∃ s2, findSession (handleSendMessage reg (some s) true (some k) inputValue false false
        userMsgId aiMessageId now chunks (some e) prevError).reg s.id = some s2 ∧
      placeholderText aiMessageId s2.messages = some (errorTextOf e)) ∧
    (handleSendMessage reg (some s) true (some k) inputValue false false
      userMsgId aiMessageId now chunks (some e) prevError).globalError
      = some (errorTextOf e) ∧
    (handleSendMessage reg (some s) true (some k) inputValue false false
      userMsgId aiMessageId now chunks (some e) prevError).remoteCalled = true ∧
    (e.invalidKey = true → errorTextOf e = ERROR_API_KEY_INVALID_BN) ∧
    (e.invalidKey = false → errorTextOf e = ERROR_SEND_FAILED_BN) := by
  simp only [handleSendMessage, Option.map_some', Option.getD_some, not_false_iff,
    and_true, or_false, if_neg ht, if_pos ht, if_false, Option.isNone_some,
    Bool.false_eq_true, ite_false, not_true]
  have h1 := updateCSM_lookup reg s.id
    (fun prev => prev ++
      [{ id := userMsgId, text := jsTrim inputValue, sender := Sender.user,
         timestamp := now, isImageQuery := false }])
    (if s.title = DEFAULT_CHAT_TITLE_BN
     then some (deriveTitle (jsTrim inputValue)) else none)
    now s hs
  have h2 := updateCSM_lookup
    (updateCurrentSessionMessages reg (some s.id)
      (fun prev => prev ++
        [{ id := userMsgId, text := jsTrim inputValue, sender := Sender.user,
           timestamp := now, isImageQuery := false }])
      (if s.title = DEFAULT_CHAT_TITLE_BN
       then some (deriveTitle (jsTrim inputValue)) else none)
      now)
    s.id
    (fun prev => prev ++
      [{ id := aiMessageId, text := "", sender := Sender.ai,
         timestamp := now, modelUsed := some s.model }])
    none now _ h1
  have hph : ((s.messages ++
      [({ id := userMsgId, text := jsTrim inputValue, sender := Sender.user,
          timestamp := now, isImageQuery := false } : ChatMessage)]) ++
      [({ id := aiMessageId, text := "", sender := Sender.ai,
          timestamp := now, modelUsed := some s.model } : ChatMessage)]).find?
        (fun x => x.id == aiMessageId)
      = some ({ id := aiMessageId, text := "", sender := Sender.ai,
                timestamp := now, modelUsed := some s.model } : ChatMessage) :=
    find?_append_single _ _ aiMessageId hfresh (beq_self_eq_true aiMessageId)
  obtain ⟨s3, m3, g1, g2, g3⟩ := deliver_fold_placeholder chunks _ s.id s.model
    aiMessageId now _ _ h2 hph
  have h4 := updateCSM_lookup _ s.id
    (fun prev => prev.map (fun msg =>
      if msg.id == aiMessageId
      then { msg with text := errorTextOf e, modelUsed := some s.model }
      else msg))
    none now s3 g1
  have hfo := find?_overwrite s3.messages aiMessageId (errorTextOf e) s.model m3 g2
  refine ⟨⟨{ s3 with
             messages := s3.messages.map (fun msg =>
               if msg.id == aiMessageId
               then { msg with text := errorTextOf e, modelUsed := some s.model }
               else msg)
             title := computeTitle none (s3.messages.map (fun msg =>
               if msg.id == aiMessageId
               then { msg with text := errorTextOf e, modelUsed := some s.model }
               else msg)) s3.title
             timestamp := now }, ?_, ?_⟩, trivial, trivial,
    fun hk => by unfold errorTextOf; rw [if_pos hk],
    fun hk => by unfold errorTextOf; rw [if_neg (by rw [hk]; exact Bool.false_ne_true)]⟩
  · show findSession (finalizeError _ (some s.id) s.model aiMessageId (errorTextOf e) now)
      s.id = _
    unfold finalizeError
    exact h4
  · show placeholderText aiMessageId (s3.messages.map (fun msg =>
      if msg.id == aiMessageId
      then { msg with text := errorTextOf e, modelUsed := some s.model }
      else msg)) = _
    unfold placeholderText
    rw [hfo]
    rfl

/-- Witness for C8: a generic stream failure after fragments
`["par", "tial"]` leaves the placeholder holding exactly the send-failure
message, with the partial text gone, and surfaces the same message
globally. -/
theorem stream_failure_overwrite_witness :
    ((findSession (handleSendMessage
        [("s1", { id := "s1", title := "T", messages := [],
                  model := ModelType.b1Regular, timestamp := 0, systemInstruction := "SI" })]
        (some { id := "s1", title := "T", messages := [],
                model := ModelType.b1Regular, timestamp := 0, systemInstruction := "SI" })
        true (some "k") "Hi" false false "u1" "a1" 3 ["par", "tial"]
        (some { invalidKey := false }) none).reg "s1").map
      (fun s => placeholderText "a1" s.messages) = some (some ERROR_SEND_FAILED_BN)) ∧
    (handleSendMessage
        [("s1", { id := "s1", title := "T", messages := [],
                  model := ModelType.b1Regular, timestamp := 0, systemInstruction := "SI" })]
        (some { id := "s1", title := "T", messages := [],
                model := ModelType.b1Regular, timestamp := 0, systemInstruction := "SI" })
        true (some "k") "Hi" false false "u1" "a1" 3 ["par", "tial"]
        (some { invalidKey := false }) none).globalError = some ERROR_SEND_FAILED_BN := by
  obtain ⟨⟨s2, h1, h2⟩, h3, _, _, h5⟩ := stream_failure_overwrite
    [("s1", { id := "s1", title := "T", messages := [],
              model := ModelType.b1Regular, timestamp := 0, systemInstruction := "SI" })]
    { id := "s1", title := "T", messages := [],
      model := ModelType.b1Regular, timestamp := 0, systemInstruction := "SI" }
    "k" "Hi" "u1" "a1" 3 ["par", "tial"] { invalidKey := false } none
    (by rfl) (by decide) (by decide)
  have he : errorTextOf { invalidKey := false } = ERROR_SEND_FAILED_BN := h5 rfl
  refine ⟨?_, ?_⟩
  · rw [h1]
    simp only [Option.map_some']
    rw [h2, he]
  · rw [h3, he]

/-- C9 as stated is false at a concrete input: in the state the app actually
reaches with no API credential configured (no conversation handle was ever
bound, since `initializeChatLogic` skips binding without a key), a send
attempt hits the session-not-ready guard FIRST and surfaces the
session-not-ready message, not the missing-credential message the claim
demands — though it is true that no remote call happens and the registry is
untouched. -/
theorem missing_credential_cex :
    (handleSendMessage [] none false none "hi" false false "u" "a" 0 [] none none).globalError
      = some ERROR_SESSION_NOT_READY_BN ∧
    ERROR_SESSION_NOT_READY_BN ≠ ERROR_API_KEY_MISSING_BN ∧
    (handleSendMessage [] none false none "hi" false false "u" "a" 0 [] none none).reg = [] ∧
    (handleSendMessage [] none false none "hi" false false "u" "a" 0 [] none none).remoteCalled
      = false ∧
    (initializeChatLogic none none none none
      { id := "f", title := "T", messages := [], model := ModelType.b1Regular,
        timestamp := 0, systemInstruction := "SI" }).geminiBound = false := by
  refine ⟨?_, ?_, ?_, ?_, ?_⟩ <;> decide

/-- C9 amended: with no API credential configured, a send attempt never
invokes a remote call and never changes the registry (first conjunct, over
every input); the error it surfaces is the session-not-ready message when no
conversation handle exists — the state actually reached without a credential
— and the missing-credential message in the hypothetical state with a handle
(second and third conjuncts); the missing-credential error itself is
surfaced persistently by initialization, which also leaves exactly one fresh
resolvable session and no remote binding (fourth conjunct). -/
theorem missing_credential_amended :
    (∀ (reg : Registry) (closureActive : Option ChatSession) (geminiReady : Bool)
       (inputValue : String) (img busy : Bool) (userMsgId aiMessageId : String)
       (now : Nat) (chunks : List String) (streamError : Option SendError)
       (prevError : Option String),
      (handleSendMessage reg closureActive geminiReady none inputValue img busy
        userMsgId aiMessageId now chunks streamError prevError).remoteCalled = false ∧
      (handleSendMessage reg closureActive geminiReady none inputValue img busy
        userMsgId aiMessageId now chunks streamError prevError).reg = reg) ∧
    (∀ (reg : Registry) (closureActive : Option ChatSession) (inputValue : String)
       (userMsgId aiMessageId : String) (now : Nat) (chunks : List String)
       (streamError : Option SendError) (prevError : Option String),
      ¬(jsTrim inputValue = "") →
      (handleSendMessage reg closureActive false none inputValue false false
        userMsgId aiMessageId now chunks streamError prevError).globalError
        = some ERROR_SESSION_NOT_READY_BN) ∧
    (∀ (reg : Registry) (closureActive : Option ChatSession) (inputValue : String)
       (userMsgId aiMessageId : String) (now : Nat) (chunks : List String)
       (streamError : Option SendError) (prevError : Option String),
      ¬(jsTrim inputValue = "") →
      (handleSendMessage reg closureActive true none inputValue false false
        userMsgId aiMessageId now chunks streamError prevError).globalError
        = some ERROR_API_KEY_MISSING_BN) ∧
    (∀ (stored : Option (Except Unit Registry)) (storedActiveId sessionIdToLoad : Option String)
       (fresh : ChatSession),
      initializeChatLogic none stored storedActiveId sessionIdToLoad fresh
        = { sessions := [(fresh.id, fresh)], activeChatId := fresh.id,
            globalError := some ERROR_API_KEY_MISSING_BN, geminiBound := false }) := by
  refine ⟨?_, ?_, ?_, ?_⟩
  · intro reg closureActive geminiReady inputValue img busy userMsgId aiMessageId
      now chunks streamError prevError
    simp only [handleSendMessage, Option.isNone_none, eq_self_iff_true, if_true]
    split_ifs with h1 h2 <;> exact ⟨rfl, rfl⟩
  · intro reg closureActive inputValue userMsgId aiMessageId now chunks
      streamError prevError ht
    simp only [handleSendMessage]
    rw [if_neg (by simp [ht]), if_pos (by simp)]
  · intro reg closureActive inputValue userMsgId aiMessageId now chunks
      streamError prevError ht
    simp only [handleSendMessage]
    rw [if_neg (by simp [ht]), if_neg (by simp), if_pos (by simp)]
  · intro stored storedActiveId sessionIdToLoad fresh
    rfl

/-- Witness for the amended C9: a concrete send attempt without a credential
and without a handle leaves the registry alone, makes no remote call, and
surfaces the session-not-ready message. -/
theorem missing_credential_amended_witness :
    (handleSendMessage [("x", { id := "x", title := "T", messages := [], model := ModelType.b1Regular, timestamp := 0, systemInstruction := "SI" })]
      none false none "hello" false false "u" "a" 5 [] none none).remoteCalled = false ∧
    (handleSendMessage [("x", { id := "x", title := "T", messages := [], model := ModelType.b1Regular, timestamp := 0, systemInstruction := "SI" })]
      none false none "hello" false false "u" "a" 5 [] none none).reg
      = [("x", { id := "x", title := "T", messages := [], model := ModelType.b1Regular, timestamp := 0, systemInstruction := "SI" })] ∧
    (handleSendMessage [("x", { id := "x", title := "T", messages := [], model := ModelType.b1Regular, timestamp := 0, systemInstruction := "SI" })]
      none false none "hello" false false "u" "a" 5 [] none none).globalError
      = some ERROR_SESSION_NOT_READY_BN := by
  have h1 := missing_credential_amended.1
    [("x", { id := "x", title := "T", messages := [], model := ModelType.b1Regular, timestamp := 0, systemInstruction := "SI" })]
    none false "hello" false false "u" "a" 5 [] none none
  have h2 := missing_credential_amended.2.1
    [("x", { id := "x", title := "T", messages := [], model := ModelType.b1Regular, timestamp := 0, systemInstruction := "SI" })]
    none "hello" "u" "a" 5 [] none none (by decide)
  exact ⟨h1.1, h1.2, h2⟩
